import Mathlib

/-!
# Verification of the resumable workflow orchestration engine

Shallow embedding, in Lean 4, of the core of the `instagram_automation`
repository: the durable workflow state machine (orchestrator), the
file-backed workflow-run repository with optimistic concurrency, the
atomic state store used for per-step idempotent caching, the step
registry, and the retry/backoff calculator.

Conventions of the embedding:
* Python `datetime` timestamps are modelled as natural numbers
  (e.g. microseconds since the epoch); `datetime.now()` becomes an
  explicit `now : Nat` argument.
* Python exceptions are modelled by the `PyErr` structure carrying the
  exception's type name and message; a fallible operation returns
  values together with an `Option PyErr` / `Except PyErr`.
* Python dictionaries with string keys are association lists; the JSON
  values the pipeline actually manipulates (strings and lists of
  strings) are modelled by `JVal`.
* Asynchronous I/O (`aiofiles`, `run_in_executor`) is sequentialized:
  each invocation runs to completion, matching the source's
  cooperative scheduling within a single task.
-/

set_option maxRecDepth 8000

namespace InstagramAutomation

/-- Python-exception model: the type's `__name__` and the stringified
message, as used by the orchestrator's
`f"{type(e).__name__}: {e}"` formatting. -/
structure PyErr where
  ty : String
  msg : String
deriving DecidableEq, Repr

/-- `WorkflowStatus` enum from `src/core/domain/enums.py`
(values PENDENTE, EM_EXECUCAO, CONCLUIDO, FALHOU_RETRIAVEL,
FALHOU_PERMANENTE). -/
inductive WorkflowStatus
  | PENDING
  | RUNNING
  | COMPLETED
  | FAILED_RETRYABLE
  | FAILED_PERMANENT
deriving DecidableEq, Repr

/-- JSON-like values stored in `state_data` and in atomic-state cache
entries.  The pipeline only ever stores strings and lists of strings
(e.g. `search_queries_used`); `null` models Python `None`. -/
inductive JVal
  | str (s : String)
  | strList (xs : List String)
  | null
deriving DecidableEq, Repr

/-- Python truthiness for the values of `JVal`: non-empty strings and
non-empty lists are truthy, `None` is falsy. -/
def JVal.truthy : JVal → Bool
  | .str s => s ≠ ""
  | .strList xs => ¬xs.isEmpty
  | .null => false

/-- A Python `Dict[str, Any]` of JSON-like values (insertion-ordered
association list with unique keys, like a `dict`). -/
abbrev JObj := List (String × JVal)

/-- `d[k]` / `d.get(k)` lookup: first binding of the key. -/
def JObj.get : JObj → String → Option JVal
  | [], _ => none
  | p :: t, k => if p.1 = k then some p.2 else JObj.get t k

/-- Python `"k" in d`. -/
def JObj.hasKey (o : JObj) (k : String) : Bool :=
  (o.get k).isSome

/-- `d[k] = v` assignment: replaces the first binding of `k` in place,
or appends a new binding (Python dicts keep insertion order). -/
def JObj.set : JObj → String → JVal → JObj
  | [], k, v => [(k, v)]
  | p :: t, k, v => if p.1 = k then (k, v) :: t else p :: JObj.set t k v

/-- Python `d.update(d2)`: assign every binding of `d2` into `d`. -/
def JObj.updateWith (o o2 : JObj) : JObj :=
  o2.foldl (fun acc p => acc.set p.1 p.2) o

/-- Python truthiness of an `Optional[Dict]`: `None` and the empty dict
are falsy. -/
def JObj.truthyOpt : Option JObj → Bool
  | none => false
  | some o => ¬o.isEmpty

/-- Truthiness of `d.get(k)` (Python: `if not d.get(k): ...`). -/
def JObj.getTruthy (o : JObj) (k : String) : Bool :=
  match o.get k with
  | none => false
  | some v => v.truthy

/-- Modelled from the spec: the `WorkflowRun` dataclass is re-exported
from `src.core.domain.entities` and used throughout the source
(orchestrator, repository, driving adapter), but its definition is
absent from the source tree.  Fields follow spec §3 and the source's
field accesses. -/
structure WorkflowRun where
  run_id : String
  workflow_name : String
  status : WorkflowStatus
  current_step : String
  /-- immutable input data; in this workflow always `{"theme": ...}`
  with a string value. -/
  payload : List (String × String)
  state_data : JObj
  step_attempt : Nat
  last_error_msg : Option String
  retry_at : Option Nat
  version : Nat
  created_at : Nat
  updated_at : Nat
deriving DecidableEq, Repr

/-- Modelled from the spec: the `RunContext` value object
(`workflow_name`, `run_id`) is re-exported from
`src.core.domain.entities` but its definition is absent from the
source tree. -/
structure RunContext where
  workflow_name : String
  run_id : String
deriving DecidableEq, Repr

/-! ## FileWorkflowRepository (src/adapters/persistence/file_workflow_repository.py)

The persisted snapshot of one run (`states/<wf>/<run_id>/workflow_state.json`)
is modelled by `StoredSnapshot`: the file may be absent, may exist but
fail to parse (invalid JSON, or an I/O error while reading), or hold a
well-formed run. -/

/-- The on-disk state of one run's `workflow_state.json`. -/
inductive StoredSnapshot
  | absent
  | corrupt
  | good (run : WorkflowRun)
deriving DecidableEq, Repr

/-- Error taxonomy of `FileWorkflowRepository.update`:
`ConcurrencyError` (version conflict or lock timeout) and the
`FileNotFoundError` raised for a non-existent run. -/
inductive RepoError
  | concurrencyError (msg : String)
  | fileNotFoundError (msg : String)
deriving DecidableEq, Repr

/-- Outcome of `FileLock(f"{run_path}.lock", timeout=10)` acquisition:
either the lock is acquired within the bounded 10-second wait, or the
`filelock.Timeout` exception is raised. -/
inductive LockResult
  | acquired
  | timedOut
deriving DecidableEq, Repr

/-- `FileWorkflowRepository.get_by_id`: returns `None` when the file
does not exist, and also returns `None` (after logging) when reading
raises `json.JSONDecodeError` or `IOError`. -/
def get_by_id : StoredSnapshot → Option WorkflowRun
  | .absent => none
  | .corrupt => none
  | .good r => some r

/-- `FileWorkflowRepository.update`.  Returns the new on-disk snapshot
together with the outcome; on any error the snapshot is returned
unchanged (the atomic write only happens after all checks pass).

Source logic: acquire the per-run file lock (a `Timeout` is caught and
re-raised as `ConcurrencyError`); reload the persisted run
(`FileNotFoundError` when absent); compare the persisted `version`
with `run.version` (`ConcurrencyError` on mismatch); otherwise
increment `run.version`, refresh `run.updated_at`, and atomically
write the snapshot. -/
def update (disk : StoredSnapshot) (run : WorkflowRun) (now : Nat)
    (lock : LockResult) : StoredSnapshot × Except RepoError WorkflowRun :=
  match lock with
  | .timedOut =>
      (disk, .error (.concurrencyError
        "Timeout ao tentar adquirir o lock para a execucao."))
  | .acquired =>
      match get_by_id disk with
      | none =>
          (disk, .error (.fileNotFoundError
            "Nao e possivel atualizar a execucao, pois ela nao existe."))
      | some existing_run =>
          if existing_run.version ≠ run.version then
            (disk, .error (.concurrencyError
              "Conflito de concorrencia na execucao."))
          else
            let run' := { run with version := run.version + 1, updated_at := now }
            (.good run', .ok run')

/-- `FileWorkflowRepository.create`: sets `version := 1`,
`created_at := updated_at := now` and writes the snapshot. -/
def create (run : WorkflowRun) (now : Nat) : StoredSnapshot :=
  .good { run with version := 1, created_at := now, updated_at := now }

/-! ## FileStateRepository (src/adapters/persistence/file_state_repository.py)

One run's `atomic_states/` directory holds both JSON state entries and
binary artifacts, keyed by sanitized filename.  `StateStore` models
these directories across run contexts as an association list
`(context, filename) -> content`. -/

/-- Content of one file in an `atomic_states` directory.  A stored
artifact's bytes are modelled as a `String`; `corruptJson` is a file
that exists but whose read raises `json.JSONDecodeError` or
`IOError`. -/
inductive FileContent
  | jsonFile (o : JObj)
  | binFile (b : String)
  | corruptJson
deriving DecidableEq, Repr

/-- The filesystem under `states/<workflow_name>/<run_id>/atomic_states/`. -/
abbrev StateStore := List (RunContext × String × FileContent)

/-- Lookup of one file (first matching entry, like a filesystem with
unique names per directory). -/
def lookupFile : StateStore → RunContext → String → Option FileContent
  | [], _, _ => none
  | e :: t, ctx, fname =>
    if e.1 = ctx ∧ e.2.1 = fname then some e.2.2 else lookupFile t ctx fname

/-- Writing a file: replaces an existing entry in place, else appends. -/
def writeFile : StateStore → RunContext → String → FileContent → StateStore
  | [], ctx, fname, c => [(ctx, fname, c)]
  | e :: t, ctx, fname, c =>
    if e.1 = ctx ∧ e.2.1 = fname then (ctx, fname, c) :: t
    else e :: writeFile t ctx fname c

/-- Removing a file (`aiofiles.os.remove`). -/
def removeFile : StateStore → RunContext → String → StateStore
  | [], _, _ => []
  | e :: t, ctx, fname =>
    if e.1 = ctx ∧ e.2.1 = fname then removeFile t ctx fname
    else e :: removeFile t ctx fname

/-- Python `\w` for the ASCII names this program uses. -/
def pyIsWordChar (c : Char) : Bool := c.isAlphanum || c = '_'

/-- Python `\s`. -/
def pyIsSpace (c : Char) : Bool :=
  c = ' ' || c = '\t' || c = '\n' || c = '\r' || c = '\x0b' || c = '\x0c'

/-- A character matched by the class `[\s_-]` in `_sanitize_filename`. -/
def isSepChar (c : Char) : Bool := pyIsSpace c || c = '_' || c = '-'

/-- `re.sub(r"[\s_-]+", "-", s)`: each maximal run of separator
characters becomes a single dash. -/
def collapseSeps (cs : List Char) : List Char :=
  (cs.foldl (fun acc c =>
    if isSepChar c then
      if acc.2 then acc else (acc.1 ++ ['-'], true)
    else (acc.1 ++ [c], false)) (([] : List Char), false)).1

/-- Python `str.strip("-")`. -/
def stripDashes (cs : List Char) : List Char :=
  ((cs.dropWhile (fun c => c = '-')).reverse.dropWhile (fun c => c = '-')).reverse

/-- `name.rsplit(".", 1)`: split at the last dot, when there is one. -/
def splitAtLastDot : List Char → Option (List Char × List Char)
  | [] => none
  | c :: rest =>
    match splitAtLastDot rest with
    | some p => some (c :: p.1, p.2)
    | none => if c = '.' then some ([], rest) else none

/-- `_sanitize_filename(name, ext)`: keep an existing extension (after
the last dot) or append `ext`; lowercase the base, drop characters
outside `[\w\s-]`, collapse separator runs to dashes, strip outer
dashes; raise `ValueError` when the base sanitizes to nothing. -/
def sanitize_filename (name : String) (ext : String) : Except PyErr String :=
  let baseExt :=
    match splitAtLastDot name.toList with
    | some p => (String.mk p.1, "." ++ String.mk p.2)
    | none => (name, ext)
  let s0 := (baseExt.1.toList.map Char.toLower).filter
    (fun c => pyIsWordChar c || pyIsSpace c || c = '-')
  let s := String.mk (stripDashes (collapseSeps s0))
  if s = "" then
    .error ⟨"ValueError", "O nome base resultou em um nome de arquivo vazio."⟩
  else
    .ok (s ++ baseExt.2)

/-- A crude model of the raw text of a JSON state file (`json.dumps`).
Only its existence matters to the claims (it is what `load_artifact`
would return for a JSON file); no claim inspects this string. -/
def JVal.dump : JVal → String
  | .str s => "\x22" ++ s ++ "\x22"
  | .strList xs =>
      "[" ++ String.intercalate ", " (xs.map (fun x => "\x22" ++ x ++ "\x22")) ++ "]"
  | .null => "null"

/-- See `JVal.dump`. -/
def JObj.dump (o : JObj) : String :=
  "\x7b" ++
    String.intercalate ", "
      (o.map (fun p => "\x22" ++ p.1 ++ "\x22: " ++ p.2.dump)) ++ "\x7d"

/-- `FileStateRepository.load`: `None` when the file does not exist and
also `None` when reading it raises `json.JSONDecodeError` or `IOError`
(both are caught and logged).  A binary artifact stored under the same
name is JPEG data, never valid JSON, so reading it as JSON also yields
`None`. -/
def FileStateRepository.load (st : StateStore) (ctx : RunContext)
    (key : String) : Except PyErr (Option JObj) :=
  match sanitize_filename key ".json" with
  | .error e => .error e
  | .ok filename =>
    match lookupFile st ctx filename with
    | none => .ok none
    | some (.jsonFile o) => .ok (some o)
    | some .corruptJson => .ok none
    | some (.binFile _) => .ok none

/-- `FileStateRepository.save`: serialize `data` and write it directly
to the target file (the source opens the target with mode `"w"` and
writes; there is no temporary file). -/
def FileStateRepository.save (st : StateStore) (ctx : RunContext)
    (key : String) (data : JObj) : Except PyErr StateStore :=
  match sanitize_filename key ".json" with
  | .error e => .error e
  | .ok filename => .ok (writeFile st ctx filename (.jsonFile data))

/-- Does the sanitized filename name an image
(`.lower().endswith((".jpg", ".jpeg", ".png", ".webp"))`)? -/
def isImageFilename (s : String) : Bool :=
  let l := s.toLower
  l.endsWith ".jpg" || l.endsWith ".jpeg" || l.endsWith ".png" || l.endsWith ".webp"

/-- `FileStateRepository.save_artifact`: sanitize the name; when it is
an image, re-encode it to JPEG with Pillow (modelled by the
`jpegRecode` collaborator, which may fail on malformed bytes); write
the bytes and return the absolute path. -/
def FileStateRepository.save_artifact (jpegRecode : String → Except PyErr String)
    (st : StateStore) (ctx : RunContext) (filename : String) (data : String) :
    Except PyErr (StateStore × String) :=
  match sanitize_filename filename "" with
  | .error e => .error e
  | .ok sanitized =>
    match (if isImageFilename sanitized then jpegRecode data else .ok data) with
    | .error e => .error e
    | .ok output =>
      let path := "states/" ++ ctx.workflow_name ++ "/" ++ ctx.run_id ++
        "/atomic_states/" ++ sanitized
      .ok (writeFile st ctx sanitized (.binFile output), path)

/-- `FileStateRepository.load_artifact`: `ArtifactNotFoundError` when
the file is absent; returns raw bytes otherwise (`IOError` while
reading is re-raised). -/
def FileStateRepository.load_artifact (st : StateStore) (ctx : RunContext)
    (filename : String) : Except PyErr String :=
  match sanitize_filename filename "" with
  | .error e => .error e
  | .ok sanitized =>
    match lookupFile st ctx sanitized with
    | none => .error ⟨"ArtifactNotFoundError", "Artefato nao encontrado: " ++ sanitized⟩
    | some (.binFile b) => .ok b
    | some (.jsonFile o) => .ok (JObj.dump o)
    | some .corruptJson => .error ⟨"OSError", "Falha ao carregar artefato."⟩

/-- `FileStateRepository.delete`: removes both the JSON state file
`sanitize(key)+".json"` and an artifact named `sanitize(key)`; returns
whether anything was removed; never fails when nothing existed. -/
def FileStateRepository.delete (st : StateStore) (ctx : RunContext)
    (key : String) : Except PyErr (StateStore × Bool) :=
  match sanitize_filename key ".json" with
  | .error e => .error e
  | .ok state_filename =>
    match sanitize_filename key "" with
    | .error e => .error e
    | .ok artifact_filename =>
      let existed := (lookupFile st ctx state_filename).isSome
        || (lookupFile st ctx artifact_filename).isSome
      let st1 := removeFile st ctx state_filename
      let st2 := removeFile st1 ctx artifact_filename
      .ok (st2, existed)

/-! ## Step registry (src/core/application/registries/step_registry.py) -/

/-- `StepConfig`: cache key and orchestrator entry state of one step. -/
structure StepConfig where
  step_key : String
  entry_state : String
deriving DecidableEq, Repr

/-- `WORKFLOW_STEPS`: the ordered map of workflows to their steps. -/
def WORKFLOW_STEPS : List (String × List (String × StepConfig)) :=
  [("create_post_from_scratch",
    [("dossier", ⟨"create_dossier", "start"⟩),
     ("copy", ⟨"generate_copy", "dossier_created"⟩),
     ("create_image", ⟨"create_image", "copy_created"⟩),
     ("edit_image", ⟨"edit_image", "image_created"⟩)])]

/-- `WORKFLOW_STEPS.get(workflow_name, {})`. -/
def lookupWorkflowSteps (workflow_name : String) : List (String × StepConfig) :=
  ((WORKFLOW_STEPS.find? (fun p => decide (p.1 = workflow_name))).map Prod.snd).getD []

/-- `workflow_steps[step_name].step_key` (all callers use names drawn
from the registry's keys, so the default is never reached). -/
def stepKeyOf (steps : List (String × StepConfig)) (n : String) : String :=
  ((steps.find? (fun p => decide (p.1 = n))).map (fun p => p.2.step_key)).getD ""

/-! ## Rewind (scripts/run_orchestrator.py, `--rerun-step` block) -/

/-- The `--rerun-step` block of `scripts/run_orchestrator.py`:
validate the step name against the registry (`none` models the script
logging an error and returning untouched); delete the cached state of
the target step and every later step (for `edit_image` additionally
the derived artifacts `post-image-masked.jpg` and `final_post.jpg`);
then reset the run to the target's entry state with `status=RUNNING`,
cleared error fields and `step_attempt=0`.  `invalidateSteps` is the
script's `for step_name in steps_to_invalidate:` loop. -/
def invalidateSteps (workflow_steps : List (String × StepConfig))
    (context : RunContext) : List String → StateStore → Except PyErr StateStore
  | [], st => .ok st
  | step_name :: rest, st =>
    match FileStateRepository.delete st context (stepKeyOf workflow_steps step_name) with
    | .error e => .error e
    | .ok r1 =>
      if step_name = "edit_image" then
        match FileStateRepository.delete r1.1 context "post-image-masked.jpg" with
        | .error e => .error e
        | .ok r2 =>
          match FileStateRepository.delete r2.1 context "final_post.jpg" with
          | .error e => .error e
          | .ok r3 => invalidateSteps workflow_steps context rest r3.1
      else
        invalidateSteps workflow_steps context rest r1.1

/-- The whole `--rerun-step` block: `none` models the script rejecting
a step name that is not in the registry (it logs an error and returns
without touching anything); otherwise the invalidation loop runs and
the run is reset to the target step's `entry_state`. -/
def rerun_rewind (run : WorkflowRun) (rerun_step : String) (st : StateStore) :
    Option (Except PyErr (WorkflowRun × StateStore)) :=
  let workflow_steps := lookupWorkflowSteps run.workflow_name
  match workflow_steps.find? (fun p => decide (p.1 = rerun_step)) with
  | none => none
  | some cfgPair =>
    some (
      let step_config := cfgPair.2
      let context : RunContext := ⟨run.workflow_name, run.run_id⟩
      let step_order := workflow_steps.map Prod.fst
      let step_index := step_order.findIdx (fun n => decide (n = rerun_step))
      let steps_to_invalidate := step_order.drop step_index
      match invalidateSteps workflow_steps context steps_to_invalidate st with
      | .error e => .error e
      | .ok st' =>
        .ok ({ run with
                current_step := step_config.entry_state,
                status := WorkflowStatus.RUNNING,
                last_error_msg := none,
                retry_at := none,
                step_attempt := 0 }, st'))

/-- The file removals that rewinding to step `copy` performs, in source
order: for each of `copy`, `create_image`, `edit_image` the JSON state
file and a same-named artifact, plus the edit step's derived artifacts
(whose names already carry an extension, so `delete` resolves both of
its candidate filenames to the same name). -/
def rewindCopyStore (ctx : RunContext) (st : StateStore) : StateStore :=
  removeFile (removeFile (removeFile (removeFile (removeFile (removeFile
    (removeFile (removeFile (removeFile (removeFile st
      ctx "generate-copy.json") ctx "generate-copy")
      ctx "create-image.json") ctx "create-image")
      ctx "edit-image.json") ctx "edit-image")
      ctx "post-image-masked.jpg") ctx "post-image-masked.jpg")
      ctx "final-post.jpg") ctx "final-post.jpg"

/-! ## Retry/backoff calculator -/

/-- Modelled from the spec: `get_next_retry_at` is imported by the
orchestrator from `src.utils.resilience` (and re-exported by
`src.utils`) but its definition is absent from the source tree.  Per
spec §4.5 the base wait is the exponential backoff
`min(base * 2^attempt, max)`. -/
def backoffWait (base maxSeconds attempt : Nat) : Nat :=
  min (base * 2 ^ attempt) maxSeconds

/-- Modelled from the spec: `next_retry_at(attempt, base, max)` adds
the capped exponential wait plus a uniform random jitter of up to 10%
of that wait to the current time.  The random draw is an explicit
`jitter` argument here; theorems constrain it to the documented
envelope `jitter ≤ wait/10`. -/
def get_next_retry_at (base maxSeconds : Nat) (attempt : Nat) (now : Nat)
    (jitter : Nat) : Nat :=
  now + backoffWait base maxSeconds attempt + jitter

/-! ## Collaborator interfaces and prompt contracts -/

/-- `LLMContract` (src/core/application/contracts.py): the
vendor-agnostic specification of one LLM call.  The (large, constant)
`prompt_template` text and response-schema fields play no observable
role in the orchestration logic and are not carried. -/
structure LLMContract where
  prompt_name : String
  prompt_version : String
  input_variables : JObj
deriving DecidableEq, Repr

/-- `get_prompt_contract("dossier", "1.0", theme=theme)`
(src/core/application/prompts/dossier/v1_0.py `get_contract`). -/
def dossier_contract (theme : String) : LLMContract :=
  ⟨"dossier", "1.0", [("theme", .str theme)]⟩

/-- `get_prompt_contract("copywriting", "1.0", theme=..., dossier=...)`. -/
def copywriting_contract (theme dossier : JVal) : LLMContract :=
  ⟨"copywriting", "1.0", [("theme", theme), ("dossier", dossier)]⟩

/-- `get_prompt_contract("image_prompt_components", "1.0", ...)`. -/
def image_prompt_components_contract (dossier copy_title copy_description : JVal) :
    LLMContract :=
  ⟨"image_prompt_components", "1.0",
    [("dossier", dossier), ("copy_title", copy_title),
     ("copy_description", copy_description)]⟩

/-- Python `str()` of a `JVal` (used where the source interpolates a
value into a prompt string). -/
def JVal.pyStr : JVal → String
  | .str s => s
  | .strList xs =>
      "[" ++ String.intercalate ", " (xs.map (fun x => "\x27" ++ x ++ "\x27")) ++ "]"
  | .null => "None"

/-- `ThemeContract` (src/core/application/contracts.py): the theme DTO.
Its visual fields (mask opacity, font and template paths, viewport,
output format) only parameterize the out-of-scope Pillow/Playwright
rendering, folded here into the `applyMask`/`render` collaborators. -/
structure ThemeContract where
  theme_name : String
deriving DecidableEq, Repr

/-- The external collaborators the orchestrator drives, as pure
functions (spec §6 treats them as opaque interfaces).  `contentGen` is
`ContentGeneratorPort.generate`, `mediaGen` is
`MediaGeneratorPort.generate_image`; `jpegRecode` is the Pillow
JPEG re-encode inside `save_artifact`; `applyMask` and `render` are
the Pillow masking and Playwright rendering phases of
`edit_image_use_case` (out-of-scope image processing, spec §1). -/
structure Collaborators where
  contentGen : LLMContract → Except PyErr JObj
  mediaGen : JVal → Except PyErr String
  jpegRecode : String → Except PyErr String
  applyMask : String → Except PyErr String
  render : ThemeContract → String → String → Except PyErr String

/-- Record of collaborator invocations, for call-count properties. -/
structure CallLog where
  content : List LLMContract
  media : List JVal

/-- Mutable world of one orchestration: the `atomic_states` filesystem
plus the collaborator call log. -/
structure World where
  store : StateStore
  calls : CallLog

/-- Number of `ContentGeneratorPort.generate` calls issued with a given
prompt name. -/
def CallLog.promptCount (l : CallLog) (p : String) : Nat :=
  (l.content.filter (fun c => decide (c.prompt_name = p))).length

/-- Log one content-generator call. -/
def World.logContent (w : World) (c : LLMContract) : World :=
  { w with calls := { w.calls with content := c :: w.calls.content } }

/-- Log one media-generator call. -/
def World.logMedia (w : World) (p : JVal) : World :=
  { w with calls := { w.calls with media := p :: w.calls.media } }

/-! ## Use cases (src/core/application/use_cases/) -/

/-- `create_dossier_use_case`: cache check
(`if cached_state and "dossie" in cached_state and cached_state["dossie"]:`),
else generate via the `dossier` contract, save the raw result dict,
then validate and return `result_dict.get("dossie")` (a falsy value
raises `ValueError`). -/
def create_dossier_use_case (theme : String) (step_key : String)
    (gen : Collaborators) (context : RunContext) (w : World) :
    World × Except PyErr JVal :=
  match FileStateRepository.load w.store context step_key with
  | .error e => (w, .error e)
  | .ok cached_state =>
    let hit :=
      match cached_state with
      | some o => !o.isEmpty && o.hasKey "dossie" && ((o.get "dossie").getD .null).truthy
      | none => false
    if hit then
      (w, .ok (((cached_state.getD []).get "dossie").getD .null))
    else
      let contract := dossier_contract theme
      let w1 := w.logContent contract
      match gen.contentGen contract with
      | .error e => (w1, .error e)
      | .ok result_dict =>
        match FileStateRepository.save w1.store context step_key result_dict with
        | .error e => (w1, .error e)
        | .ok st' =>
          let w2 := { w1 with store := st' }
          match result_dict.get "dossie" with
          | some v =>
            if v.truthy then (w2, .ok v)
            else (w2, .error ⟨"ValueError",
              "A resposta do LLM para o dossie nao continha a chave dossie."⟩)
          | none => (w2, .error ⟨"ValueError",
              "A resposta do LLM para o dossie nao continha a chave dossie."⟩)

/-- `copywriter_use_case`: cache check
(`if cached_state and "title" in cached_state and "description" in cached_state:`)
returns the two cached fields; else generate via the `copywriting`
contract, save the full result, then validate the two keys. -/
def copywriter_use_case (theme dossier : JVal) (step_key : String)
    (gen : Collaborators) (context : RunContext) (w : World) :
    World × Except PyErr JObj :=
  match FileStateRepository.load w.store context step_key with
  | .error e => (w, .error e)
  | .ok cached_state =>
    let hit :=
      match cached_state with
      | some o => !o.isEmpty && o.hasKey "title" && o.hasKey "description"
      | none => false
    if hit then
      let o := cached_state.getD []
      (w, .ok [("title", (o.get "title").getD .null),
               ("description", (o.get "description").getD .null)])
    else
      let contract := copywriting_contract theme dossier
      let w1 := w.logContent contract
      match gen.contentGen contract with
      | .error e => (w1, .error e)
      | .ok copy_result_dict =>
        match FileStateRepository.save w1.store context step_key copy_result_dict with
        | .error e => (w1, .error e)
        | .ok st' =>
          let w2 := { w1 with store := st' }
          if !copy_result_dict.hasKey "title" || !copy_result_dict.hasKey "description" then
            (w2, .error ⟨"ValueError",
              "A resposta do LLM para a copy nao continha title e/ou description."⟩)
          else
            (w2, .ok copy_result_dict)

/-- `_build_final_image_prompt`: validate the six required component
keys (raising `ValueError` listing the missing ones) and concatenate
the components into the final image prompt. -/
def build_final_image_prompt (components : JObj) : Except PyErr String :=
  let required_keys := ["subject", "context_background", "style", "lighting",
    "camera_details", "quality_modifiers"]
  let missing_keys := required_keys.filter (fun k => !components.hasKey k)
  if !missing_keys.isEmpty then
    .error ⟨"ValueError",
      "Componentes de prompt ausentes: " ++ String.intercalate ", " missing_keys⟩
  else
    let comp := fun k => ((components.get k).getD .null).pyStr
    .ok (comp "subject" ++ " " ++ comp "context_background" ++ ", " ++
      comp "style" ++ ", " ++ comp "lighting" ++ ", " ++
      comp "camera_details" ++ ", " ++ comp "quality_modifiers")

/-- Phases 1–2 of `create_image_use_case`: reuse the cached
`final_image_prompt` when present
(`if cached_state and "final_image_prompt" in cached_state:`), else
generate prompt components with the LLM, build the final prompt and
save it under the step key. -/
def create_image_prompt_phase (cached_state : Option JObj)
    (dossier copy_title copy_description : JVal) (step_key : String)
    (gen : Collaborators) (context : RunContext) (w : World) :
    World × Except PyErr JVal :=
  let hit :=
    match cached_state with
    | some o => !o.isEmpty && o.hasKey "final_image_prompt"
    | none => false
  if hit then
    (w, .ok (((cached_state.getD []).get "final_image_prompt").getD .null))
  else
    let contract := image_prompt_components_contract dossier copy_title copy_description
    let w1 := w.logContent contract
    match gen.contentGen contract with
    | .error e => (w1, .error e)
    | .ok prompt_components =>
      match build_final_image_prompt prompt_components with
      | .error e => (w1, .error e)
      | .ok final_prompt =>
        match FileStateRepository.save w1.store context step_key
            [("final_image_prompt", .str final_prompt)] with
        | .error e => (w1, .error e)
        | .ok st' => ({ w1 with store := st' }, .ok (.str final_prompt))

/-- `create_image_use_case`: cache check and prompt phase
(`create_image_prompt_phase`), the `if not final_prompt` guard, then
phase 3: always call the media generator on the final prompt. -/
def create_image_use_case (dossier copy_title copy_description : JVal)
    (step_key : String) (gen : Collaborators) (context : RunContext) (w : World) :
    World × Except PyErr String :=
  match FileStateRepository.load w.store context step_key with
  | .error e => (w, .error e)
  | .ok cached_state =>
    match create_image_prompt_phase cached_state dossier copy_title
        copy_description step_key gen context w with
    | (w2, .error e) => (w2, .error e)
    | (w2, .ok final_prompt) =>
      if !final_prompt.truthy then
        (w2, .error ⟨"ValueError", "O prompt final da imagem nao pode ser determinado."⟩)
      else
        let w3 := w2.logMedia final_prompt
        match gen.mediaGen final_prompt with
        | .error e => (w3, .error e)
        | .ok image_bytes => (w3, .ok image_bytes)

/-- `edit_image_use_case`: apply the darkening mask (a Pillow failure
is re-raised as `IOError`/`OSError`), save the intermediate
`post-image-masked.jpg` artifact, then render the title over the
masked image (font read, Playwright and final format conversion,
folded into the `render` collaborator). -/
def edit_image_use_case (gen : Collaborators) (theme : ThemeContract)
    (image_bytes : String) (title : JVal) (context : RunContext) (w : World) :
    World × Except PyErr String :=
  match gen.applyMask image_bytes with
  | .error e =>
    (w, .error ⟨"OSError", "Nao foi possivel processar a imagem com Pillow: " ++ e.msg⟩)
  | .ok masked_image_bytes =>
    match FileStateRepository.save_artifact gen.jpegRecode w.store context
        "post-image-masked.jpg" masked_image_bytes with
    | .error e => (w, .error e)
    | .ok (st1, _) =>
      let w1 := { w with store := st1 }
      match gen.render theme masked_image_bytes title.pyStr with
      | .error e => (w1, .error e)
      | .ok final_image_bytes => (w1, .ok final_image_bytes)

/-! ## Orchestrator (src/core/application/orchestrators/create_post_from_scratch.py)

Each guarded block of the source's sequential state machine is one
step function returning the (possibly mutated) world and run together
with the raised exception, if any; the in-place mutation of `run` in
the source means a raising step still returns the mutations made
before the raise. -/

/-- Step 1, guard `current_step == "start"`: generate the dossier,
store it in `state_data["dossier_content"]`, advance to
`dossier_created`, reset `step_attempt`.  `run.payload["theme"]`
raises `KeyError` when absent. -/
def step_start (gen : Collaborators) (run : WorkflowRun) (w : World) :
    World × WorkflowRun × Option PyErr :=
  if run.current_step = "start" then
    let context : RunContext := ⟨run.workflow_name, run.run_id⟩
    match (run.payload.find? (fun p => decide (p.1 = "theme"))).map Prod.snd with
    | none => (w, run, some ⟨"KeyError", "\x27theme\x27"⟩)
    | some theme =>
      match create_dossier_use_case theme "create_dossier" gen context w with
      | (w1, .error e) => (w1, run, some e)
      | (w1, .ok dossier) =>
        (w1,
         { run with
            state_data := run.state_data.set "dossier_content" dossier,
            current_step := "dossier_created",
            step_attempt := 0 },
         none)
  else (w, run, none)

/-- Step 2, guard `current_step == "dossier_created"`: validate the
dossier is in `state_data`, then call the copywriter use case.  The
source invokes `copywriter_use_case(dossier=..., context=...,
step_key="generate_copy", content_generator=..., state_repo=...)`,
omitting the required first parameter `theme` of
`copywriter_use_case(theme, dossier, ...)`; binding the arguments of
the call therefore raises `TypeError` before the use-case body (and
its cache check) can run. -/
def step_dossier_created (run : WorkflowRun) (w : World) :
    World × WorkflowRun × Option PyErr :=
  if run.current_step = "dossier_created" then
    let dossier_content := run.state_data.get "dossier_content"
    if !((dossier_content.getD .null).truthy) then
      (w, run, some ⟨"ValueError",
        "Dossie nao encontrado no estado para a etapa de copywriting."⟩)
    else
      (w, run, some ⟨"TypeError",
        "copywriter_use_case() missing 1 required positional argument: \x27theme\x27"⟩)
  else (w, run, none)

/-- Step 3, guard `current_step == "copy_created"`: validate inputs,
generate the base image, save it as the `post_image.jpg` artifact,
record its path and filename, advance to `image_created`. -/
def step_copy_created (gen : Collaborators) (run : WorkflowRun) (w : World) :
    World × WorkflowRun × Option PyErr :=
  if run.current_step = "copy_created" then
    let context : RunContext := ⟨run.workflow_name, run.run_id⟩
    let dossier := (run.state_data.get "dossier_content").getD .null
    let title := (run.state_data.get "title").getD .null
    let description := (run.state_data.get "description").getD .null
    if !(dossier.truthy && title.truthy && description.truthy) then
      (w, run, some ⟨"ValueError", "Dados ausentes no estado para a geracao da imagem."⟩)
    else
      match create_image_use_case dossier title description "create_image" gen context w with
      | (w1, .error e) => (w1, run, some e)
      | (w1, .ok image_bytes) =>
        match FileStateRepository.save_artifact gen.jpegRecode w1.store context
            "post_image.jpg" image_bytes with
        | .error e => (w1, run, some e)
        | .ok res2 =>
          ({ w1 with store := res2.1 },
           { run with
              state_data := (run.state_data.set "generated_image_path"
                (.str res2.2)).set "generated_image_filename" (.str "post_image.jpg"),
              current_step := "image_created",
              step_attempt := 0 },
           none)
  else (w, run, none)

/-- Step 4, guard `current_step == "image_created"`: validate inputs,
load the base-image artifact, run the edit/render use case, save the
`final_post.jpg` artifact, record its path and filename, advance to
`final_image_created`. -/
def step_image_created (gen : Collaborators) (theme : ThemeContract)
    (run : WorkflowRun) (w : World) : World × WorkflowRun × Option PyErr :=
  if run.current_step = "image_created" then
    let context : RunContext := ⟨run.workflow_name, run.run_id⟩
    let image_base_filename := (run.state_data.get "generated_image_filename").getD .null
    let title := (run.state_data.get "title").getD .null
    if !(image_base_filename.truthy && title.truthy) then
      (w, run, some ⟨"ValueError",
        "Nome do arquivo da imagem base ou titulo ausente do estado."⟩)
    else
      match FileStateRepository.load_artifact w.store context image_base_filename.pyStr with
      | .error e => (w, run, some e)
      | .ok original_image_bytes =>
        match edit_image_use_case gen theme original_image_bytes title context w with
        | (w1, .error e) => (w1, run, some e)
        | (w1, .ok final_image_bytes) =>
          match FileStateRepository.save_artifact gen.jpegRecode w1.store context
              "final_post.jpg" final_image_bytes with
          | .error e => (w1, run, some e)
          | .ok res2 =>
            ({ w1 with store := res2.1 },
             { run with
                state_data := (run.state_data.set "final_image_path"
                  (.str res2.2)).set "final_image_filename" (.str "final_post.jpg"),
                current_step := "final_image_created",
                step_attempt := 0 },
             none)
  else (w, run, none)

/-- Completion block, guard `current_step == "final_image_created"`:
mark the workflow `COMPLETED`. -/
def step_final_image_created (run : WorkflowRun) (w : World) :
    World × WorkflowRun × Option PyErr :=
  if run.current_step = "final_image_created" then
    (w, { run with status := WorkflowStatus.COMPLETED }, none)
  else (w, run, none)

/-- Sequencing of guarded blocks: once a step raises, the rest of the
`try` body is skipped. -/
def andThenStep (r : World × WorkflowRun × Option PyErr)
    (f : WorkflowRun → World → World × WorkflowRun × Option PyErr) :
    World × WorkflowRun × Option PyErr :=
  match r with
  | (w, run, none) => f run w
  | x => x

/-- The `try` body of the orchestrator: the five guarded blocks in
source order. -/
def orchestratorBody (gen : Collaborators) (theme : ThemeContract)
    (run : WorkflowRun) (w : World) : World × WorkflowRun × Option PyErr :=
  andThenStep (andThenStep (andThenStep (andThenStep
    (step_start gen run w)
    step_dossier_created)
    (step_copy_created gen))
    (step_image_created gen theme))
    step_final_image_created

/-- The pipeline from the copy step onward (blocks 2–5): what an
invocation reduces to once the dossier block is skipped. -/
def orchestratorBodyFromCopyStep (gen : Collaborators) (theme : ThemeContract)
    (run : WorkflowRun) (w : World) : World × WorkflowRun × Option PyErr :=
  andThenStep (andThenStep (andThenStep
    (step_dossier_created run w)
    (step_copy_created gen))
    (step_image_created gen theme))
    step_final_image_created

/-- The top of the invocation: `if run.status != RUNNING:
run.status = RUNNING; run.step_attempt = 0`. -/
def startInvocation (run : WorkflowRun) : WorkflowRun :=
  if run.status ≠ WorkflowStatus.RUNNING then
    { run with status := WorkflowStatus.RUNNING, step_attempt := 0 }
  else run

/-- `create_post_from_scratch_orchestrator`: set `RUNNING` (resetting
`step_attempt`) when not already running, run the guarded blocks, and
catch any exception at top level: `status := FAILED_RETRYABLE`,
`step_attempt += 1`, `last_error_msg := f"[type]: [message]"`,
`retry_at := get_next_retry_at(run.step_attempt)`; finally refresh
`updated_at` and return the run.  `base`, `maxSeconds` and `jitter`
are the (spec-modelled) backoff parameters; `now` stands for
`datetime.now(timezone.utc)`. -/
def create_post_from_scratch_orchestrator (gen : Collaborators)
    (theme : ThemeContract) (base maxSeconds jitter : Nat)
    (run : WorkflowRun) (w : World) (now : Nat) : WorkflowRun × World :=
  let run0 := startInvocation run
  match orchestratorBody gen theme run0 w with
  | (w1, run1, none) => ({ run1 with updated_at := now }, w1)
  | (w1, run1, some e) =>
    ({ run1 with
        status := WorkflowStatus.FAILED_RETRYABLE,
        step_attempt := run1.step_attempt + 1,
        last_error_msg := some (e.ty ++ ": " ++ e.msg),
        retry_at := some (get_next_retry_at base maxSeconds
          (run1.step_attempt + 1) now jitter),
        updated_at := now },
     w1)

/-- Call accounting across one step: at most one content-generator call
was issued, and only with prompt name `p0`. -/
def callsExtendContent (w w' : World) (p0 : String) : Prop :=
  w'.calls.content = w.calls.content ∨
    ∃ c, c.prompt_name = p0 ∧ w'.calls.content = c :: w.calls.content

/-- Media-generator call accounting across one step: at most one call
was issued. -/
def callsExtendMedia (w w' : World) : Prop :=
  w'.calls.media = w.calls.media ∨ ∃ m, w'.calls.media = m :: w.calls.media

/-! ## Observable write behavior of the two persistence paths (C2) -/

/-- The sequence of target-file states that a concurrent reader (or a
reader after a crash mid-write) can observe while
`FileStateRepository.save` runs: the source opens the target file
itself with mode `"w"` — truncating it in place — and then writes the
serialized JSON, so every prefix of the new content is observable at
the target path. -/
def FileStateRepository.saveWriteStates (old : Option String) (new : String) :
    List (Option String) :=
  old :: (List.range (new.toList.length + 1)).map
    (fun k => some (String.mk (new.toList.take k)))

/-- The sequence of target-file states observable while
`FileWorkflowRepository._atomic_write` runs: the content is written to
a `mkstemp` temporary in the same directory and `os.replace` then
atomically renames it over the target, so the target only ever holds
the complete old or the complete new content. -/
def FileWorkflowRepository.atomicWriteStates (old : Option String)
    (new : String) : List (Option String) :=
  [old, some new]

/-- Atomicity with respect to concurrent readers (spec §4.1): every
observable state of the target is the fully-written previous value or
the fully-written new value, never a partial write. -/
def atomicForReaders (states : List (Option String)) (old : Option String)
    (new : String) : Prop :=
  ∀ s ∈ states, s = old ∨ s = some new

/-! ## Concrete scenario material for witnesses and counterexamples -/

/-- A theme DTO (its contents are irrelevant to the orchestration). -/
def theTheme : ThemeContract := ⟨"default"⟩

/-- The mock collaborator of claim C8: `generate` returns
`{"dossie": "D", "search_queries_used": []}` for the dossier prompt. -/
def mockDossierGen : Collaborators where
  contentGen := fun c =>
    if c.prompt_name = "dossier" then
      .ok [("dossie", .str "D"), ("search_queries_used", .strList [])]
    else .error ⟨"AssertionError", "unexpected prompt"⟩
  mediaGen := fun _ => .error ⟨"AssertionError", "unexpected media call"⟩
  jpegRecode := fun b => .ok b
  applyMask := fun b => .ok b
  render := fun _ _ _ => .ok "FINAL"

/-- A collaborator whose generation calls always fail (fault
injection). -/
def failingGen : Collaborators where
  contentGen := fun _ => .error ⟨"RuntimeError", "boom"⟩
  mediaGen := fun _ => .error ⟨"RuntimeError", "boom"⟩
  jpegRecode := fun b => .ok b
  applyMask := fun b => .ok b
  render := fun _ _ _ => .ok "FINAL"

/-- A freshly created run: `scripts/run_orchestrator.py` builds it with
`status=PENDING`, `payload={"theme": ...}` and
`FileWorkflowRepository.create` sets `version = 1`. -/
def freshRun : WorkflowRun :=
  { run_id := "run-1", workflow_name := "create_post_from_scratch",
    status := .PENDING, current_step := "start",
    payload := [("theme", "hydration")], state_data := [],
    step_attempt := 0, last_error_msg := none, retry_at := none,
    version := 1, created_at := 0, updated_at := 0 }

/-- An empty `atomic_states` directory and no collaborator calls yet. -/
def emptyWorld : World := ⟨[], [], []⟩

/-- A run persisted mid-pipeline at `dossier_created` (the
resume-after-crash scenario of spec §8). -/
def resumedRun : WorkflowRun :=
  { freshRun with
      status := .RUNNING, current_step := "dossier_created",
      state_data := [("dossier_content", .str "D")], version := 2 }

/-- The cached dossier entry such a run would have on disk. -/
def resumedWorld : World :=
  ⟨[(⟨"create_post_from_scratch", "run-1"⟩, "create-dossier.json",
     .jsonFile [("dossie", .str "D"), ("search_queries_used", .strList [])])],
   [], []⟩

/-- A run that has completed through `final_image_created` (the rewind
scenario of spec §8). -/
def rewindDemoRun : WorkflowRun :=
  { freshRun with
      status := .COMPLETED, current_step := "final_image_created",
      state_data := [("dossier_content", .str "D"), ("title", .str "T"),
        ("description", .str "X")],
      version := 6 }

/-- The `atomic_states` directory such a completed run leaves behind:
one cache entry per step plus the saved artifacts. -/
def rewindDemoStore : StateStore :=
  [(⟨"create_post_from_scratch", "run-1"⟩, "create-dossier.json",
     .jsonFile [("dossie", .str "D")]),
   (⟨"create_post_from_scratch", "run-1"⟩, "generate-copy.json",
     .jsonFile [("title", .str "T"), ("description", .str "X")]),
   (⟨"create_post_from_scratch", "run-1"⟩, "create-image.json",
     .jsonFile [("final_image_prompt", .str "P")]),
   (⟨"create_post_from_scratch", "run-1"⟩, "post-image.jpg", .binFile "IMG"),
   (⟨"create_post_from_scratch", "run-1"⟩, "post-image-masked.jpg", .binFile "MASKED"),
   (⟨"create_post_from_scratch", "run-1"⟩, "final-post.jpg", .binFile "FINAL")]

/-- First invocation of the fault-injection scenario (C7): a fresh run
whose dossier step fails. -/
def failInv1 : WorkflowRun × World :=
  create_post_from_scratch_orchestrator failingGen theTheme 60 3600 0
    freshRun emptyWorld 100

/-- Second consecutive failing invocation on the result of the first. -/
def failInv2 : WorkflowRun × World :=
  create_post_from_scratch_orchestrator failingGen theTheme 60 3600 0
    failInv1.1 failInv1.2 200

/-! ## Helper lemmas -/

theorem JObj.get_set (o : JObj) (k : String) (v : JVal) (k2 : String) :
    (o.set k v).get k2 = if k2 = k then some v else o.get k2 := by
  induction o with
  | nil =>
    by_cases h : k2 = k
    · subst h; simp [JObj.set, JObj.get]
    · simp [JObj.set, JObj.get, h, Ne.symm h]
  | cons p t ih =>
    by_cases hp : p.1 = k
    · by_cases h : k2 = k
      · subst h; simp [JObj.set, JObj.get, hp]
      · have hpk2 : ¬p.1 = k2 := by rw [hp]; exact Ne.symm h
        simp [JObj.set, JObj.get, hp, h, hpk2, Ne.symm h]
    · by_cases h : k2 = k
      · subst h; simp [JObj.set, JObj.get, hp, ih]
      · simp [JObj.set, JObj.get, hp, ih, h]

theorem lookupFile_removeFile (st : StateStore) (ctx : RunContext)
    (fname : String) (ctx2 : RunContext) (f2 : String) :
    lookupFile (removeFile st ctx fname) ctx2 f2 =
      if ctx2 = ctx ∧ f2 = fname then none else lookupFile st ctx2 f2 := by
  induction st with
  | nil => simp [removeFile, lookupFile]
  | cons e t ih =>
    by_cases he : e.1 = ctx ∧ e.2.1 = fname
    · rw [removeFile, if_pos he, ih]
      by_cases h2 : ctx2 = ctx ∧ f2 = fname
      · simp [h2]
      · have h4 : ¬(e.1 = ctx2 ∧ e.2.1 = f2) := by
          rintro ⟨a, b⟩
          exact h2 ⟨a.symm.trans he.1, b.symm.trans he.2⟩
        simp [h2, lookupFile, h4]
    · rw [removeFile, if_neg he]
      rw [lookupFile, lookupFile]
      by_cases h3 : e.1 = ctx2 ∧ e.2.1 = f2
      · have h4 : ¬(ctx2 = ctx ∧ f2 = fname) := by
          rintro ⟨a, b⟩
          exact he ⟨h3.1.trans a, h3.2.trans b⟩
        simp [h3, h4]
      · simp [h3, ih]

theorem lookupFile_writeFile (st : StateStore) (ctx : RunContext)
    (fname : String) (c : FileContent) (ctx2 : RunContext) (f2 : String) :
    lookupFile (writeFile st ctx fname c) ctx2 f2 =
      if ctx2 = ctx ∧ f2 = fname then some c else lookupFile st ctx2 f2 := by
  induction st with
  | nil =>
    by_cases h : ctx2 = ctx ∧ f2 = fname
    · obtain ⟨a, b⟩ := h
      subst a; subst b
      simp [writeFile, lookupFile]
    · rw [writeFile]
      dsimp only [lookupFile]
      rw [if_neg (fun hh : ctx = ctx2 ∧ fname = f2 => h ⟨hh.1.symm, hh.2.symm⟩),
        if_neg h]
  | cons e t ih =>
    by_cases he : e.1 = ctx ∧ e.2.1 = fname
    · rw [writeFile, if_pos he, lookupFile]
      by_cases h2 : ctx = ctx2 ∧ fname = f2
      · obtain ⟨a, b⟩ := h2
        subst a; subst b
        simp
      · have h3 : ¬(ctx2 = ctx ∧ f2 = fname) := fun hh => h2 ⟨hh.1.symm, hh.2.symm⟩
        have h4 : ¬(e.1 = ctx2 ∧ e.2.1 = f2) := by
          rintro ⟨a, b⟩
          exact h2 ⟨he.1.symm.trans a, he.2.symm.trans b⟩
        simp [h2, h3, h4, lookupFile]
    · rw [writeFile, if_neg he]
      rw [lookupFile, lookupFile]
      by_cases h3 : e.1 = ctx2 ∧ e.2.1 = f2
      · have h4 : ¬(ctx2 = ctx ∧ f2 = fname) := by
          rintro ⟨a, b⟩
          exact he ⟨h3.1.trans a, h3.2.trans b⟩
        simp [h3, h4]
      · simp [h3, ih]

theorem promptCount_preserved_of_extend {w w' : World} {p0 : String}
    (h : callsExtendContent w w' p0) (p : String) (hp : p ≠ p0) :
    w'.calls.promptCount p = w.calls.promptCount p := by
  rcases h with h | ⟨c, hc, h⟩
  · unfold CallLog.promptCount
    rw [h]
  · unfold CallLog.promptCount
    rw [h, List.filter_cons]
    have hcp : ¬(c.prompt_name = p) := by
      rw [hc]; exact fun hh => hp hh.symm
    simp [hcp]

theorem create_dossier_use_case_world (theme k : String) (g : Collaborators)
    (ctx : RunContext) (w : World) :
    callsExtendContent w (create_dossier_use_case theme k g ctx w).1 "dossier" ∧
    (create_dossier_use_case theme k g ctx w).1.calls.media = w.calls.media := by
  unfold create_dossier_use_case
  split
  · exact ⟨Or.inl rfl, rfl⟩
  · dsimp only
    split
    · exact ⟨Or.inl rfl, rfl⟩
    · split
      · exact ⟨Or.inr ⟨dossier_contract theme, rfl, rfl⟩, rfl⟩
      · split
        · exact ⟨Or.inr ⟨dossier_contract theme, rfl, rfl⟩, rfl⟩
        · split
          · split
            · exact ⟨Or.inr ⟨dossier_contract theme, rfl, rfl⟩, rfl⟩
            · exact ⟨Or.inr ⟨dossier_contract theme, rfl, rfl⟩, rfl⟩
          · exact ⟨Or.inr ⟨dossier_contract theme, rfl, rfl⟩, rfl⟩

theorem create_image_prompt_phase_world (cs : Option JObj) (d ct cd : JVal)
    (k : String) (g : Collaborators) (ctx : RunContext) (w : World) :
    callsExtendContent w (create_image_prompt_phase cs d ct cd k g ctx w).1
      "image_prompt_components" ∧
    (create_image_prompt_phase cs d ct cd k g ctx w).1.calls.media =
      w.calls.media := by
  unfold create_image_prompt_phase
  dsimp only
  split
  · exact ⟨Or.inl rfl, rfl⟩
  · split
    · exact ⟨Or.inr ⟨image_prompt_components_contract d ct cd, rfl, rfl⟩, rfl⟩
    · split
      · exact ⟨Or.inr ⟨image_prompt_components_contract d ct cd, rfl, rfl⟩, rfl⟩
      · split
        · exact ⟨Or.inr ⟨image_prompt_components_contract d ct cd, rfl, rfl⟩, rfl⟩
        · exact ⟨Or.inr ⟨image_prompt_components_contract d ct cd, rfl, rfl⟩, rfl⟩

theorem create_image_use_case_world (d ct cd : JVal) (k : String)
    (g : Collaborators) (ctx : RunContext) (w : World) :
    callsExtendContent w (create_image_use_case d ct cd k g ctx w).1
      "image_prompt_components" ∧
    callsExtendMedia w (create_image_use_case d ct cd k g ctx w).1 := by
  unfold create_image_use_case
  split
  · exact ⟨Or.inl rfl, Or.inl rfl⟩
  · rename_i cs _
    have hp := create_image_prompt_phase_world cs d ct cd k g ctx w
    split
    · rename_i w2 e heq
      rw [heq] at hp
      exact ⟨hp.1, Or.inl hp.2⟩
    · rename_i w2 fp heq
      rw [heq] at hp
      split
      · exact ⟨hp.1, Or.inl hp.2⟩
      · dsimp only
        split
        · refine ⟨hp.1, Or.inr ⟨fp, ?_⟩⟩
          dsimp only at hp ⊢
          simp [World.logMedia, hp.2]
        · refine ⟨hp.1, Or.inr ⟨fp, ?_⟩⟩
          dsimp only at hp ⊢
          simp [World.logMedia, hp.2]

theorem edit_image_use_case_world (g : Collaborators) (θ : ThemeContract)
    (ib : String) (t : JVal) (ctx : RunContext) (w : World) :
    (edit_image_use_case g θ ib t ctx w).1.calls = w.calls := by
  unfold edit_image_use_case
  split
  · rfl
  · split
    · rfl
    · split <;> rfl

theorem create_dossier_use_case_world_of {theme k : String} {g : Collaborators}
    {ctx : RunContext} {w : World} {res : World × Except PyErr JVal}
    (h : create_dossier_use_case theme k g ctx w = res) :
    callsExtendContent w res.1 "dossier" ∧ res.1.calls.media = w.calls.media := by
  subst h
  exact create_dossier_use_case_world theme k g ctx w

theorem create_image_use_case_world_of {d ct cd : JVal} {k : String}
    {g : Collaborators} {ctx : RunContext} {w : World}
    {res : World × Except PyErr String}
    (h : create_image_use_case d ct cd k g ctx w = res) :
    callsExtendContent w res.1 "image_prompt_components" ∧
    callsExtendMedia w res.1 := by
  subst h
  exact create_image_use_case_world d ct cd k g ctx w

theorem edit_image_use_case_world_of {g : Collaborators} {θ : ThemeContract}
    {ib : String} {t : JVal} {ctx : RunContext} {w : World}
    {res : World × Except PyErr String}
    (h : edit_image_use_case g θ ib t ctx w = res) :
    res.1.calls = w.calls := by
  subst h
  exact edit_image_use_case_world g θ ib t ctx w

/-! ### Per-step case analyses

Each guarded block either skips (guard false), raises with the run
unchanged, or succeeds with exactly the source's field updates; the
call log grows only by that step's own collaborator calls. -/

theorem step_start_cases (g : Collaborators) (r : WorkflowRun) (w : World) :
    (r.current_step ≠ "start" ∧ step_start g r w = (w, r, none)) ∨
    (∃ w' e, step_start g r w = (w', r, some e) ∧
      callsExtendContent w w' "dossier" ∧ w'.calls.media = w.calls.media) ∨
    (∃ w' d, step_start g r w =
        (w', { r with
                state_data := r.state_data.set "dossier_content" d,
                current_step := "dossier_created", step_attempt := 0 }, none) ∧
      callsExtendContent w w' "dossier" ∧ w'.calls.media = w.calls.media) := by
  by_cases hg : r.current_step = "start"
  · unfold step_start
    rw [if_pos hg]
    dsimp only
    split
    · exact Or.inr (Or.inl ⟨w, _, rfl, Or.inl rfl, rfl⟩)
    · split
      · rename_i w1 e heq
        have hw := create_dossier_use_case_world_of heq
        exact Or.inr (Or.inl ⟨w1, e, rfl, hw.1, hw.2⟩)
      · rename_i w1 d heq
        have hw := create_dossier_use_case_world_of heq
        exact Or.inr (Or.inr ⟨w1, d, rfl, hw.1, hw.2⟩)
  · refine Or.inl ⟨hg, ?_⟩
    unfold step_start
    rw [if_neg hg]

theorem step_dossier_created_cases (r : WorkflowRun) (w : World) :
    (r.current_step ≠ "dossier_created" ∧ step_dossier_created r w = (w, r, none)) ∨
    (∃ e, step_dossier_created r w = (w, r, some e)) := by
  by_cases hg : r.current_step = "dossier_created"
  · right
    unfold step_dossier_created
    rw [if_pos hg]
    dsimp only
    split
    · exact ⟨_, rfl⟩
    · exact ⟨_, rfl⟩
  · refine Or.inl ⟨hg, ?_⟩
    unfold step_dossier_created
    rw [if_neg hg]

theorem step_copy_created_cases (g : Collaborators) (r : WorkflowRun) (w : World) :
    (r.current_step ≠ "copy_created" ∧ step_copy_created g r w = (w, r, none)) ∨
    (∃ w' e, step_copy_created g r w = (w', r, some e) ∧
      callsExtendContent w w' "image_prompt_components" ∧ callsExtendMedia w w') ∨
    (∃ w' sp, step_copy_created g r w =
        (w', { r with
                state_data := (r.state_data.set "generated_image_path"
                  (.str sp)).set "generated_image_filename"
                  (.str "post_image.jpg"),
                current_step := "image_created", step_attempt := 0 }, none) ∧
      callsExtendContent w w' "image_prompt_components" ∧ callsExtendMedia w w') := by
  by_cases hg : r.current_step = "copy_created"
  · unfold step_copy_created
    rw [if_pos hg]
    dsimp only
    split
    · exact Or.inr (Or.inl ⟨w, _, rfl, Or.inl rfl, Or.inl rfl⟩)
    · split
      · rename_i w1 e heq
        have hw := create_image_use_case_world_of heq
        exact Or.inr (Or.inl ⟨w1, e, rfl, hw.1, hw.2⟩)
      · rename_i w1 image_bytes heq
        have hw := create_image_use_case_world_of heq
        split
        · rename_i e2 heq2
          exact Or.inr (Or.inl ⟨w1, e2, rfl, hw.1, hw.2⟩)
        · rename_i p2 heq2
          exact Or.inr (Or.inr ⟨{ w1 with store := p2.1 }, p2.2, rfl,
            hw.1, hw.2⟩)
  · refine Or.inl ⟨hg, ?_⟩
    unfold step_copy_created
    rw [if_neg hg]

theorem step_image_created_cases (g : Collaborators) (θ : ThemeContract)
    (r : WorkflowRun) (w : World) :
    (r.current_step ≠ "image_created" ∧ step_image_created g θ r w = (w, r, none)) ∨
    (∃ w' e, step_image_created g θ r w = (w', r, some e) ∧
      w'.calls = w.calls) ∨
    (∃ w' fp, step_image_created g θ r w =
        (w', { r with
                state_data := (r.state_data.set "final_image_path"
                  (.str fp)).set "final_image_filename" (.str "final_post.jpg"),
                current_step := "final_image_created", step_attempt := 0 }, none) ∧
      w'.calls = w.calls) := by
  by_cases hg : r.current_step = "image_created"
  · unfold step_image_created
    rw [if_pos hg]
    dsimp only
    split
    · exact Or.inr (Or.inl ⟨w, _, rfl, rfl⟩)
    · split
      · rename_i e heq
        exact Or.inr (Or.inl ⟨w, e, rfl, rfl⟩)
      · rename_i original_image_bytes heq
        split
        · rename_i w1 e heq2
          have hw := edit_image_use_case_world_of heq2
          exact Or.inr (Or.inl ⟨w1, e, rfl, hw⟩)
        · rename_i w1 final_image_bytes heq2
          have hw := edit_image_use_case_world_of heq2
          split
          · rename_i e heq3
            exact Or.inr (Or.inl ⟨w1, e, rfl, hw⟩)
          · rename_i p2 heq3
            exact Or.inr (Or.inr ⟨{ w1 with store := p2.1 }, p2.2, rfl, hw⟩)
  · refine Or.inl ⟨hg, ?_⟩
    unfold step_image_created
    rw [if_neg hg]

theorem step_final_image_created_cases (r : WorkflowRun) (w : World) :
    (r.current_step ≠ "final_image_created" ∧
      step_final_image_created r w = (w, r, none)) ∨
    (r.current_step = "final_image_created" ∧
      step_final_image_created r w =
        (w, { r with status := WorkflowStatus.COMPLETED }, none)) := by
  by_cases hg : r.current_step = "final_image_created"
  · refine Or.inr ⟨hg, ?_⟩
    unfold step_final_image_created
    rw [if_pos hg]
  · refine Or.inl ⟨hg, ?_⟩
    unfold step_final_image_created
    rw [if_neg hg]

/-! ### Per-step projection facts -/

theorem step_start_skip {g : Collaborators} {r : WorkflowRun} {w : World}
    (h : r.current_step ≠ "start") : step_start g r w = (w, r, none) := by
  unfold step_start
  rw [if_neg h]

theorem step_start_promptCount (g : Collaborators) (r : WorkflowRun) (w : World)
    (p : String) (hp : p ≠ "dossier") :
    ((step_start g r w).1).calls.promptCount p = w.calls.promptCount p := by
  rcases step_start_cases g r w with ⟨_, h⟩ | ⟨w', e, h, hc, _⟩ | ⟨w', d, h, hc, _⟩ <;>
    rw [h]
  all_goals first
    | rfl
    | exact promptCount_preserved_of_extend hc p hp

theorem step_start_media (g : Collaborators) (r : WorkflowRun) (w : World) :
    ((step_start g r w).1).calls.media = w.calls.media := by
  rcases step_start_cases g r w with ⟨_, h⟩ | ⟨w', e, h, _, hm⟩ | ⟨w', d, h, _, hm⟩ <;>
    rw [h]
  all_goals first
    | rfl
    | exact hm

theorem step_start_state_get (g : Collaborators) (r : WorkflowRun) (w : World)
    (k : String) (hk : k ≠ "dossier_content") :
    ((step_start g r w).2.1).state_data.get k = r.state_data.get k := by
  rcases step_start_cases g r w with ⟨_, h⟩ | ⟨w', e, h, _, _⟩ | ⟨w', d, h, _, _⟩ <;>
    rw [h]
  all_goals first
    | rfl
    | (dsimp only; rw [JObj.get_set, if_neg hk])

theorem step_start_attempt (g : Collaborators) (r : WorkflowRun) (w : World) :
    ((step_start g r w).2.1).step_attempt = r.step_attempt ∨
    ((step_start g r w).2.1).step_attempt = 0 := by
  rcases step_start_cases g r w with ⟨_, h⟩ | ⟨w', e, h, _, _⟩ | ⟨w', d, h, _, _⟩ <;>
    rw [h]
  all_goals first
    | exact Or.inr rfl
    | exact Or.inl rfl

theorem step_start_current (g : Collaborators) (r : WorkflowRun) (w : World) :
    ((step_start g r w).2.1).current_step = r.current_step ∨
    ((step_start g r w).2.1).current_step = "dossier_created" := by
  rcases step_start_cases g r w with ⟨_, h⟩ | ⟨w', e, h, _, _⟩ | ⟨w', d, h, _, _⟩ <;>
    rw [h]
  · exact Or.inl rfl
  · exact Or.inl rfl
  · exact Or.inr rfl

theorem step_dossier_created_inert (r : WorkflowRun) (w : World) :
    (step_dossier_created r w).1 = w ∧ (step_dossier_created r w).2.1 = r := by
  rcases step_dossier_created_cases r w with ⟨_, h⟩ | ⟨e, h⟩ <;> rw [h] <;>
    exact ⟨rfl, rfl⟩

theorem step_copy_created_skip {g : Collaborators} {r : WorkflowRun} {w : World}
    (h : r.current_step ≠ "copy_created") : step_copy_created g r w = (w, r, none) := by
  unfold step_copy_created
  rw [if_neg h]

theorem step_copy_created_promptCount (g : Collaborators) (r : WorkflowRun)
    (w : World) (p : String) (hp : p ≠ "image_prompt_components") :
    ((step_copy_created g r w).1).calls.promptCount p = w.calls.promptCount p := by
  rcases step_copy_created_cases g r w with ⟨_, h⟩ | ⟨w', e, h, hc, _⟩ |
    ⟨w', sp, h, hc, _⟩ <;> rw [h]
  all_goals first
    | rfl
    | exact promptCount_preserved_of_extend hc p hp

theorem step_copy_created_state_get (g : Collaborators) (r : WorkflowRun)
    (w : World) (k : String) (hk1 : k ≠ "generated_image_path")
    (hk2 : k ≠ "generated_image_filename") :
    ((step_copy_created g r w).2.1).state_data.get k = r.state_data.get k := by
  rcases step_copy_created_cases g r w with ⟨_, h⟩ | ⟨w', e, h, _, _⟩ |
    ⟨w', sp, h, _, _⟩ <;> rw [h]
  all_goals first
    | rfl
    | (dsimp only; rw [JObj.get_set, if_neg hk2, JObj.get_set, if_neg hk1])

theorem step_copy_created_attempt (g : Collaborators) (r : WorkflowRun)
    (w : World) :
    ((step_copy_created g r w).2.1).step_attempt = r.step_attempt ∨
    ((step_copy_created g r w).2.1).step_attempt = 0 := by
  rcases step_copy_created_cases g r w with ⟨_, h⟩ | ⟨w', e, h, _, _⟩ |
    ⟨w', sp, h, _, _⟩ <;> rw [h]
  all_goals first
    | exact Or.inr rfl
    | exact Or.inl rfl

theorem step_copy_created_current (g : Collaborators) (r : WorkflowRun)
    (w : World) :
    ((step_copy_created g r w).2.1).current_step = r.current_step ∨
    ((step_copy_created g r w).2.1).current_step = "image_created" := by
  rcases step_copy_created_cases g r w with ⟨_, h⟩ | ⟨w', e, h, _, _⟩ |
    ⟨w', sp, h, _, _⟩ <;> rw [h]
  · exact Or.inl rfl
  · exact Or.inl rfl
  · exact Or.inr rfl

theorem step_image_created_skip {g : Collaborators} {θ : ThemeContract}
    {r : WorkflowRun} {w : World} (h : r.current_step ≠ "image_created") :
    step_image_created g θ r w = (w, r, none) := by
  unfold step_image_created
  rw [if_neg h]

theorem step_image_created_calls (g : Collaborators) (θ : ThemeContract)
    (r : WorkflowRun) (w : World) :
    ((step_image_created g θ r w).1).calls = w.calls := by
  rcases step_image_created_cases g θ r w with ⟨_, h⟩ | ⟨w', e, h, hc⟩ |
    ⟨w', fp, h, hc⟩ <;> rw [h]
  all_goals first
    | rfl
    | exact hc

theorem step_image_created_state_get (g : Collaborators) (θ : ThemeContract)
    (r : WorkflowRun) (w : World) (k : String) (hk1 : k ≠ "final_image_path")
    (hk2 : k ≠ "final_image_filename") :
    ((step_image_created g θ r w).2.1).state_data.get k = r.state_data.get k := by
  rcases step_image_created_cases g θ r w with ⟨_, h⟩ | ⟨w', e, h, _⟩ |
    ⟨w', fp, h, _⟩ <;> rw [h]
  all_goals first
    | rfl
    | (dsimp only; rw [JObj.get_set, if_neg hk2, JObj.get_set, if_neg hk1])

theorem step_image_created_attempt (g : Collaborators) (θ : ThemeContract)
    (r : WorkflowRun) (w : World) :
    ((step_image_created g θ r w).2.1).step_attempt = r.step_attempt ∨
    ((step_image_created g θ r w).2.1).step_attempt = 0 := by
  rcases step_image_created_cases g θ r w with ⟨_, h⟩ | ⟨w', e, h, _⟩ |
    ⟨w', fp, h, _⟩ <;> rw [h]
  all_goals first
    | exact Or.inr rfl
    | exact Or.inl rfl

theorem step_image_created_current (g : Collaborators) (θ : ThemeContract)
    (r : WorkflowRun) (w : World) :
    ((step_image_created g θ r w).2.1).current_step = r.current_step ∨
    ((step_image_created g θ r w).2.1).current_step = "final_image_created" := by
  rcases step_image_created_cases g θ r w with ⟨_, h⟩ | ⟨w', e, h, _⟩ |
    ⟨w', fp, h, _⟩ <;> rw [h]
  · exact Or.inl rfl
  · exact Or.inl rfl
  · exact Or.inr rfl

theorem step_final_image_created_fields (r : WorkflowRun) (w : World) :
    (step_final_image_created r w).1 = w ∧
    (step_final_image_created r w).2.1.state_data = r.state_data ∧
    (step_final_image_created r w).2.1.current_step = r.current_step ∧
    (step_final_image_created r w).2.1.step_attempt = r.step_attempt := by
  rcases step_final_image_created_cases r w with ⟨_, h⟩ | ⟨_, h⟩ <;> rw [h] <;>
    exact ⟨rfl, rfl, rfl, rfl⟩

/-! ### Composition over the guarded-block sequence -/

theorem andThenStep_phi (Φ : WorkflowRun → World → Prop)
    (x : World × WorkflowRun × Option PyErr)
    (f : WorkflowRun → World → World × WorkflowRun × Option PyErr)
    (hx : Φ x.2.1 x.1)
    (hf : ∀ r' w', Φ r' w' → Φ ((f r' w').2.1) ((f r' w').1)) :
    Φ ((andThenStep x f).2.1) ((andThenStep x f).1) := by
  rcases x with ⟨wx, rx, ex⟩
  cases ex
  · exact hf rx wx hx
  · exact hx

/-- Any property of the (run, world) pair preserved by each of the five
guarded blocks is preserved by the whole `try` body. -/
theorem orchestratorBody_phi (Φ : WorkflowRun → World → Prop)
    (gen : Collaborators) (θ : ThemeContract) (r : WorkflowRun) (w : World)
    (h0 : Φ r w)
    (h1 : ∀ r' w', Φ r' w' →
      Φ ((step_start gen r' w').2.1) ((step_start gen r' w').1))
    (h2 : ∀ r' w', Φ r' w' →
      Φ ((step_dossier_created r' w').2.1) ((step_dossier_created r' w').1))
    (h3 : ∀ r' w', Φ r' w' →
      Φ ((step_copy_created gen r' w').2.1) ((step_copy_created gen r' w').1))
    (h4 : ∀ r' w', Φ r' w' →
      Φ ((step_image_created gen θ r' w').2.1) ((step_image_created gen θ r' w').1))
    (h5 : ∀ r' w', Φ r' w' →
      Φ ((step_final_image_created r' w').2.1) ((step_final_image_created r' w').1)) :
    Φ ((orchestratorBody gen θ r w).2.1) ((orchestratorBody gen θ r w).1) := by
  unfold orchestratorBody
  exact andThenStep_phi Φ _ _
    (andThenStep_phi Φ _ _
      (andThenStep_phi Φ _ _
        (andThenStep_phi Φ _ _ (h1 r w h0) h2) h3) h4) h5

/-- Once the dossier block is skipped, the invocation is literally the
pipeline from the copy step onward. -/
theorem orchestratorBody_skip_start (gen : Collaborators) (θ : ThemeContract)
    (r : WorkflowRun) (w : World) (h : r.current_step ≠ "start") :
    orchestratorBody gen θ r w = orchestratorBodyFromCopyStep gen θ r w := by
  unfold orchestratorBody orchestratorBodyFromCopyStep
  rw [step_start_skip h]
  rfl

theorem startInvocation_fields (r : WorkflowRun) :
    (startInvocation r).current_step = r.current_step ∧
    (startInvocation r).state_data = r.state_data := by
  unfold startInvocation
  split <;> exact ⟨rfl, rfl⟩

theorem orchestrator_decompose (gen : Collaborators) (θ : ThemeContract)
    (base maxSeconds jitter : Nat) (run : WorkflowRun) (w : World) (now : Nat) :
    (create_post_from_scratch_orchestrator gen θ base maxSeconds jitter run w now).2 =
      (orchestratorBody gen θ (startInvocation run) w).1 ∧
    (create_post_from_scratch_orchestrator gen θ base maxSeconds jitter run w now).1.current_step =
      (orchestratorBody gen θ (startInvocation run) w).2.1.current_step ∧
    (create_post_from_scratch_orchestrator gen θ base maxSeconds jitter run w now).1.state_data =
      (orchestratorBody gen θ (startInvocation run) w).2.1.state_data := by
  rcases h : orchestratorBody gen θ (startInvocation run) w with ⟨w1, r1, e1⟩
  unfold create_post_from_scratch_orchestrator
  dsimp only
  rw [h]
  cases e1 <;> exact ⟨rfl, rfl, rfl⟩

/-- `step_attempt` can only be kept or reset to zero by the `try`
body (each successful block writes `0`, a raising block leaves it). -/
theorem orchestratorBody_attempt (gen : Collaborators) (θ : ThemeContract)
    (r : WorkflowRun) (w : World) :
    ((orchestratorBody gen θ r w).2.1).step_attempt = r.step_attempt ∨
    ((orchestratorBody gen θ r w).2.1).step_attempt = 0 := by
  refine orchestratorBody_phi
    (fun r' _ => r'.step_attempt = r.step_attempt ∨ r'.step_attempt = 0)
    gen θ r w (Or.inl rfl) ?_ ?_ ?_ ?_ ?_
  · intro r' w' hr
    rcases step_start_attempt gen r' w' with h | h
    · rw [h]; exact hr
    · exact Or.inr h
  · intro r' w' hr
    rw [(step_dossier_created_inert r' w').2]
    exact hr
  · intro r' w' hr
    rcases step_copy_created_attempt gen r' w' with h | h
    · rw [h]; exact hr
    · exact Or.inr h
  · intro r' w' hr
    rcases step_image_created_attempt gen θ r' w' with h | h
    · rw [h]; exact hr
    · exact Or.inr h
  · intro r' w' hr
    rw [(step_final_image_created_fields r' w').2.2.2]
    exact hr

theorem step_start_fail_run {g : Collaborators} {r : WorkflowRun} {w : World}
    {a : World} {b : WorkflowRun} {c : PyErr}
    (h : step_start g r w = (a, b, some c)) : b = r := by
  rcases step_start_cases g r w with ⟨_, he⟩ | ⟨w', e, he, _, _⟩ |
    ⟨w', d, he, _, _⟩ <;>
    rw [he] at h <;>
    injection h with h1 h23 <;>
    injection h23 with h2 h3
  · exact Option.noConfusion h3
  · exact h2.symm
  · exact Option.noConfusion h3

theorem step_dossier_created_fail_run {r : WorkflowRun} {w : World}
    {a : World} {b : WorkflowRun} {c : PyErr}
    (h : step_dossier_created r w = (a, b, some c)) : b = r := by
  rcases step_dossier_created_cases r w with ⟨_, he⟩ | ⟨e, he⟩ <;>
    rw [he] at h <;>
    injection h with h1 h23 <;>
    injection h23 with h2 h3
  · exact Option.noConfusion h3
  · exact h2.symm

theorem step_copy_created_fail_run {g : Collaborators} {r : WorkflowRun}
    {w : World} {a : World} {b : WorkflowRun} {c : PyErr}
    (h : step_copy_created g r w = (a, b, some c)) : b = r := by
  rcases step_copy_created_cases g r w with ⟨_, he⟩ | ⟨w', e, he, _, _⟩ |
    ⟨w', sp, he, _, _⟩ <;>
    rw [he] at h <;>
    injection h with h1 h23 <;>
    injection h23 with h2 h3
  · exact Option.noConfusion h3
  · exact h2.symm
  · exact Option.noConfusion h3

theorem step_image_created_fail_run {g : Collaborators} {θ : ThemeContract}
    {r : WorkflowRun} {w : World} {a : World} {b : WorkflowRun} {c : PyErr}
    (h : step_image_created g θ r w = (a, b, some c)) : b = r := by
  rcases step_image_created_cases g θ r w with ⟨_, he⟩ | ⟨w', e, he, _⟩ |
    ⟨w', fp, he, _⟩ <;>
    rw [he] at h <;>
    injection h with h1 h23 <;>
    injection h23 with h2 h3
  · exact Option.noConfusion h3
  · exact h2.symm
  · exact Option.noConfusion h3

/-! ## C1 -/

/-- C1: `FileWorkflowRepository.update` on an existing run raises
`ConcurrencyError` and leaves the persisted snapshot unchanged
whenever the persisted version differs from `run.version`; when they
are equal, it persists exactly `run` with `version + 1` and a
refreshed `updated_at` — hence every successful update advances the
persisted version by exactly one. -/
theorem C1_update_optimistic_concurrency
    (disk : StoredSnapshot) (run : WorkflowRun) (now : Nat) :
    (∀ persisted, disk = .good persisted → persisted.version ≠ run.version →
      (update disk run now .acquired).1 = .good persisted ∧
      ∃ msg, (update disk run now .acquired).2 = .error (.concurrencyError msg)) ∧
    (∀ persisted, disk = .good persisted → persisted.version = run.version →
      update disk run now .acquired =
        (.good { run with version := run.version + 1, updated_at := now },
         .ok { run with version := run.version + 1, updated_at := now })) ∧
    (∀ run2, (update disk run now .acquired).2 = .ok run2 →
      ∃ persisted, disk = .good persisted ∧ persisted.version = run.version ∧
        (update disk run now .acquired).1 = .good run2 ∧
        run2.version = persisted.version + 1 ∧ run2.updated_at = now) := by
  refine ⟨?_, ?_, ?_⟩
  · rintro persisted rfl hv
    simp [update, get_by_id, hv]
  · rintro persisted rfl hv
    simp [update, get_by_id, hv]
  · intro run2 h
    cases disk with
    | absent => simp [update, get_by_id] at h
    | corrupt => simp [update, get_by_id] at h
    | good persisted =>
      by_cases hv : persisted.version = run.version
      · refine ⟨persisted, rfl, hv, ?_⟩
        simp only [update, get_by_id, hv, ne_eq, not_true_eq_false, if_false] at h ⊢
        simp at h
        subst h
        simp [hv]
      · simp [update, get_by_id, hv] at h

/-- Witness for C1: a stale caller version (2 against persisted 3)
fails with `ConcurrencyError` leaving version 3 on disk; a matching
version 2 persists version 3 with `updated_at = 7`. -/
theorem C1_update_optimistic_concurrency_witness :
    ((update (.good { freshRun with version := 3 }) { freshRun with version := 2 }
        7 .acquired).1 = .good { freshRun with version := 3 } ∧
      ∃ msg, (update (.good { freshRun with version := 3 })
        { freshRun with version := 2 } 7 .acquired).2 =
          .error (.concurrencyError msg)) ∧
    update (.good { freshRun with version := 2 }) { freshRun with version := 2 }
        7 .acquired =
      (.good { freshRun with version := 3, updated_at := 7 },
       .ok { freshRun with version := 3, updated_at := 7 }) := by
  constructor
  · exact (C1_update_optimistic_concurrency _ _ _).1 _ rfl (by decide)
  · exact (C1_update_optimistic_concurrency
      (.good { freshRun with version := 2 }) { freshRun with version := 2 } 7).2.1
      _ rfl rfl

/-! ## C9 -/

/-- C9: when lock acquisition times out, `update` raises
`ConcurrencyError` (the same failure constructor a version conflict
produces), never a bare `filelock.Timeout`, and the snapshot is
untouched. -/
theorem C9_lock_timeout_surfaces_as_concurrency_error
    (disk : StoredSnapshot) (run : WorkflowRun) (now : Nat) :
    (update disk run now .timedOut).1 = disk ∧
    (update disk run now .timedOut).2 =
      .error (.concurrencyError
        "Timeout ao tentar adquirir o lock para a execucao.") ∧
    (update (.good { freshRun with version := run.version + 1 }) run now
        .acquired).2 =
      .error (.concurrencyError "Conflito de concorrencia na execucao.") := by
  refine ⟨rfl, rfl, ?_⟩
  have h : ({ freshRun with version := run.version + 1 } : WorkflowRun).version
      ≠ run.version := by
    simp [freshRun]
  simp [update, get_by_id, h]

/-! ## C10 -/

/-- C10: a stored value that exists but cannot be parsed (invalid JSON
or an I/O error while reading) is indistinguishable from one never
stored at both read interfaces: `FileStateRepository.load` and
`FileWorkflowRepository.get_by_id` return `None` instead of raising. -/
theorem C10_corrupt_reads_as_absent
    (st : StateStore) (ctx : RunContext) (key fname : String)
    (hf : sanitize_filename key ".json" = .ok fname) :
    (lookupFile st ctx fname = some .corruptJson →
      FileStateRepository.load st ctx key = .ok none) ∧
    (lookupFile st ctx fname = none →
      FileStateRepository.load st ctx key = .ok none) ∧
    get_by_id .corrupt = none ∧
    get_by_id .absent = none := by
  refine ⟨?_, ?_, rfl, rfl⟩ <;>
    intro h <;>
    simp [FileStateRepository.load, hf, h]

/-- Witness for C10: a corrupted `create-dossier.json` loads as `None`. -/
theorem C10_corrupt_reads_as_absent_witness :
    FileStateRepository.load
      [(⟨"create_post_from_scratch", "run-1"⟩, "create-dossier.json", .corruptJson)]
      ⟨"create_post_from_scratch", "run-1"⟩ "create_dossier" = .ok none :=
  (C10_corrupt_reads_as_absent
      [(⟨"create_post_from_scratch", "run-1"⟩, "create-dossier.json", .corruptJson)]
      ⟨"create_post_from_scratch", "run-1"⟩ "create_dossier" "create-dossier.json"
      rfl).1 rfl

/-! ## C2 -/

/-- C2 (code bug): `FileStateRepository.save` opens the target file
itself with mode `"w"` — truncating it — and writes directly, so a
concurrent reader (or a crash mid-write) can observe a state that is
neither the old nor the new value: writing `"ab"` over `"old"`
exposes the partial state `"a"`.  By contrast
`FileWorkflowRepository._atomic_write` (temp file + `os.replace`) is
atomic for every old/new pair, which is what the claim describes. -/
theorem C2_save_is_not_atomic_for_readers :
    ¬ atomicForReaders
        (FileStateRepository.saveWriteStates (some "old") "ab") (some "old") "ab" ∧
    (∀ old new, atomicForReaders
        (FileWorkflowRepository.atomicWriteStates old new) old new) := by
  constructor
  · intro h
    rcases h (some "a") (by decide) with hc | hc <;> exact absurd hc (by decide)
  · intro old new s hs
    simp only [FileWorkflowRepository.atomicWriteStates, List.mem_cons,
      List.mem_singleton, List.not_mem_nil, or_false] at hs
    tauto

/-! ## C6 -/

/-- C6: the (spec-modelled) backoff calculator returns the current time
plus the capped exponential wait `min(base * 2^attempt, max)` plus the
jitter draw; the base wait is monotone in `attempt` and capped at
`max`, and — for positive `base` and `max` — the returned timestamp is
strictly in the future. -/
theorem C6_backoff_monotone_capped_future
    (base maxSeconds a b now jitter : Nat)
    (hbase : 0 < base) (hmax : 0 < maxSeconds) (hab : a ≤ b)
    (hjit : jitter * 10 ≤ backoffWait base maxSeconds a) :
    get_next_retry_at base maxSeconds a now jitter =
      now + backoffWait base maxSeconds a + jitter ∧
    backoffWait base maxSeconds a ≤ backoffWait base maxSeconds b ∧
    backoffWait base maxSeconds a ≤ maxSeconds ∧
    now < get_next_retry_at base maxSeconds a now jitter := by
  refine ⟨rfl, ?_, Nat.min_le_right _ _, ?_⟩
  · exact min_le_min
      (Nat.mul_le_mul le_rfl (Nat.pow_le_pow_right (by omega) hab))
      le_rfl
  · have hw : 0 < backoffWait base maxSeconds a := by
      have h2 : 0 < base * 2 ^ a :=
        Nat.mul_pos hbase (pow_pos (by omega) a)
      exact lt_min h2 hmax
    simp only [get_next_retry_at]
    omega

/-- Witness for C6 at `base = 60`, `max = 3600`, attempts 1 ≤ 2,
`now = 100`, jitter 6 (within 10% of the 120-second wait). -/
theorem C6_backoff_monotone_capped_future_witness :
    (0 < 60 ∧ 0 < 3600 ∧ 1 ≤ 2 ∧ 6 * 10 ≤ backoffWait 60 3600 1) ∧
    (get_next_retry_at 60 3600 1 100 6 = 100 + backoffWait 60 3600 1 + 6 ∧
     backoffWait 60 3600 1 ≤ backoffWait 60 3600 2 ∧
     backoffWait 60 3600 1 ≤ 3600 ∧
     100 < get_next_retry_at 60 3600 1 100 6) :=
  ⟨⟨by decide, by decide, by decide, by decide⟩,
   C6_backoff_monotone_capped_future 60 3600 1 2 100 6
     (by decide) (by decide) (by decide) (by decide)⟩

/-! ## C5 -/

/-- C5: rewinding a `create_post_from_scratch` run to step `copy`
removes the cached state for the step keys `generate_copy`,
`create_image` and `edit_image` together with the derived artifacts of
the edit step (`post-image-masked.jpg`, `final_post.jpg`), leaves the
`create_dossier` cache entry untouched, and resets the run to
`current_step = "dossier_created"` (copy's entry state),
`status = RUNNING`, cleared `last_error_msg`/`retry_at` and
`step_attempt = 0`. -/
theorem C5_rewind_to_copy_cascade (run : WorkflowRun) (st : StateStore)
    (h : run.workflow_name = "create_post_from_scratch") :
    rerun_rewind run "copy" st =
      some (.ok
        ({ run with
            current_step := "dossier_created",
            status := WorkflowStatus.RUNNING, last_error_msg := none,
            retry_at := none, step_attempt := 0 },
         rewindCopyStore ⟨run.workflow_name, run.run_id⟩ st)) ∧
    FileStateRepository.load (rewindCopyStore ⟨run.workflow_name, run.run_id⟩ st)
      ⟨run.workflow_name, run.run_id⟩ "generate_copy" = .ok none ∧
    FileStateRepository.load (rewindCopyStore ⟨run.workflow_name, run.run_id⟩ st)
      ⟨run.workflow_name, run.run_id⟩ "create_image" = .ok none ∧
    FileStateRepository.load (rewindCopyStore ⟨run.workflow_name, run.run_id⟩ st)
      ⟨run.workflow_name, run.run_id⟩ "edit_image" = .ok none ∧
    lookupFile (rewindCopyStore ⟨run.workflow_name, run.run_id⟩ st)
      ⟨run.workflow_name, run.run_id⟩ "post-image-masked.jpg" = none ∧
    lookupFile (rewindCopyStore ⟨run.workflow_name, run.run_id⟩ st)
      ⟨run.workflow_name, run.run_id⟩ "final-post.jpg" = none ∧
    FileStateRepository.load (rewindCopyStore ⟨run.workflow_name, run.run_id⟩ st)
        ⟨run.workflow_name, run.run_id⟩ "create_dossier" =
      FileStateRepository.load st ⟨run.workflow_name, run.run_id⟩
        "create_dossier" ∧
    ({ run with
        current_step := "dossier_created",
        status := WorkflowStatus.RUNNING, last_error_msg := none,
        retry_at := none, step_attempt := 0 } : WorkflowRun).current_step =
      "dossier_created" := by
  obtain ⟨rid, wname, stt, cs, pl, sd, sa, lm, ra, v, ca, ua⟩ := run
  dsimp only at h
  subst h
  have sgc : sanitize_filename "generate_copy" ".json" = .ok "generate-copy.json" := rfl
  have sci : sanitize_filename "create_image" ".json" = .ok "create-image.json" := rfl
  have sei : sanitize_filename "edit_image" ".json" = .ok "edit-image.json" := rfl
  have scd : sanitize_filename "create_dossier" ".json" = .ok "create-dossier.json" := rfl
  refine ⟨rfl, ?_, ?_, ?_, ?_, ?_, ?_, rfl⟩ <;>
    simp [FileStateRepository.load, sgc, sci, sei, scd, rewindCopyStore,
      lookupFile_removeFile]

/-- Witness for C5: the rewind applied to a concrete completed run and
its six-file cache directory. -/
theorem C5_rewind_to_copy_cascade_witness :
    rewindDemoRun.workflow_name = "create_post_from_scratch" ∧
    rerun_rewind rewindDemoRun "copy" rewindDemoStore =
      some (.ok
        ({ rewindDemoRun with
            current_step := "dossier_created",
            status := WorkflowStatus.RUNNING, last_error_msg := none,
            retry_at := none, step_attempt := 0 },
         rewindCopyStore ⟨rewindDemoRun.workflow_name, rewindDemoRun.run_id⟩
           rewindDemoStore)) ∧
    FileStateRepository.load
      (rewindCopyStore ⟨rewindDemoRun.workflow_name, rewindDemoRun.run_id⟩
        rewindDemoStore)
      ⟨rewindDemoRun.workflow_name, rewindDemoRun.run_id⟩ "generate_copy" =
      .ok none ∧
    FileStateRepository.load
        (rewindCopyStore ⟨rewindDemoRun.workflow_name, rewindDemoRun.run_id⟩
          rewindDemoStore)
        ⟨rewindDemoRun.workflow_name, rewindDemoRun.run_id⟩ "create_dossier" =
      FileStateRepository.load rewindDemoStore
        ⟨rewindDemoRun.workflow_name, rewindDemoRun.run_id⟩ "create_dossier" :=
  ⟨rfl,
   (C5_rewind_to_copy_cascade rewindDemoRun rewindDemoStore rfl).1,
   (C5_rewind_to_copy_cascade rewindDemoRun rewindDemoStore rfl).2.1,
   (C5_rewind_to_copy_cascade rewindDemoRun rewindDemoStore rfl).2.2.2.2.2.2.1⟩

/-! ## C3 -/

/-- C3: any exception raised inside a step body is caught once at the
top of the invocation, which then returns (rather than raises) the run
with `status = FAILED_RETRYABLE`, `step_attempt` incremented by one
(equal to 1 when the invocation began on a non-RUNNING run, i.e. on the
first failure at a step), `last_error_msg` set to the exception's type
and message (never empty), `retry_at` strictly in the future, and
`current_step` exactly as the failing step found it (the closing
conjuncts: a raising block never moves `current_step`). -/
theorem C3_step_failure_round_trip
    (gen : Collaborators) (θ : ThemeContract) (base maxSeconds jitter : Nat)
    (run : WorkflowRun) (w : World) (now : Nat)
    (w1 : World) (run1 : WorkflowRun) (e : PyErr)
    (hbase : 0 < base) (hmax : 0 < maxSeconds)
    (hbody : orchestratorBody gen θ (startInvocation run) w = (w1, run1, some e)) :
    (create_post_from_scratch_orchestrator gen θ base maxSeconds jitter run w now).1.status =
      WorkflowStatus.FAILED_RETRYABLE ∧
    (create_post_from_scratch_orchestrator gen θ base maxSeconds jitter run w now).1.step_attempt =
      run1.step_attempt + 1 ∧
    (run.status ≠ WorkflowStatus.RUNNING →
      (create_post_from_scratch_orchestrator gen θ base maxSeconds jitter run w now).1.step_attempt = 1) ∧
    (create_post_from_scratch_orchestrator gen θ base maxSeconds jitter run w now).1.last_error_msg =
      some (e.ty ++ ": " ++ e.msg) ∧
    (create_post_from_scratch_orchestrator gen θ base maxSeconds jitter run w now).1.last_error_msg ≠
      some "" ∧
    (∃ t, (create_post_from_scratch_orchestrator gen θ base maxSeconds jitter run w now).1.retry_at =
        some t ∧ now < t) ∧
    (create_post_from_scratch_orchestrator gen θ base maxSeconds jitter run w now).1.current_step =
      run1.current_step ∧
    (∀ (g : Collaborators) (r2 : WorkflowRun) (w2 a : World) (b : WorkflowRun)
      (c : PyErr), step_start g r2 w2 = (a, b, some c) →
        b.current_step = r2.current_step) ∧
    (∀ (r2 : WorkflowRun) (w2 a : World) (b : WorkflowRun) (c : PyErr),
      step_dossier_created r2 w2 = (a, b, some c) →
        b.current_step = r2.current_step) ∧
    (∀ (g : Collaborators) (r2 : WorkflowRun) (w2 a : World) (b : WorkflowRun)
      (c : PyErr), step_copy_created g r2 w2 = (a, b, some c) →
        b.current_step = r2.current_step) ∧
    (∀ (g : Collaborators) (t2 : ThemeContract) (r2 : WorkflowRun) (w2 a : World)
      (b : WorkflowRun) (c : PyErr), step_image_created g t2 r2 w2 = (a, b, some c) →
        b.current_step = r2.current_step) := by
  have horch : create_post_from_scratch_orchestrator gen θ base maxSeconds jitter run w now =
      ({ run1 with
          status := WorkflowStatus.FAILED_RETRYABLE,
          step_attempt := run1.step_attempt + 1,
          last_error_msg := some (e.ty ++ ": " ++ e.msg),
          retry_at := some (get_next_retry_at base maxSeconds
            (run1.step_attempt + 1) now jitter),
          updated_at := now }, w1) := by
    unfold create_post_from_scratch_orchestrator
    dsimp only
    rw [hbody]
  refine ⟨by rw [horch], by rw [horch], ?_, by rw [horch], ?_, ?_, by rw [horch],
    ?_, ?_, ?_, ?_⟩
  · intro hs
    have h0 : (startInvocation run).step_attempt = 0 := by
      unfold startInvocation
      rw [if_pos hs]
    have hb := orchestratorBody_attempt gen θ (startInvocation run) w
    rw [hbody] at hb
    dsimp only at hb
    rw [h0] at hb
    have h1 : run1.step_attempt = 0 := hb.elim id id
    rw [horch]
    dsimp only
    rw [h1]
  · rw [horch]
    dsimp only
    intro hmsg
    have h2 : e.ty ++ ": " ++ e.msg = "" := Option.some.inj hmsg
    have h3 := congrArg String.length h2
    rw [String.length_append, String.length_append] at h3
    have h4 : (": ").length = 2 := rfl
    have h5 : ("" : String).length = 0 := rfl
    omega
  · refine ⟨get_next_retry_at base maxSeconds (run1.step_attempt + 1) now jitter,
      by rw [horch], ?_⟩
    have hw : 0 < backoffWait base maxSeconds (run1.step_attempt + 1) :=
      lt_min (Nat.mul_pos hbase (pow_pos (by omega) _)) hmax
    unfold get_next_retry_at
    omega
  · exact fun g r2 w2 a b c h => by rw [step_start_fail_run h]
  · exact fun r2 w2 a b c h => by rw [step_dossier_created_fail_run h]
  · exact fun g r2 w2 a b c h => by rw [step_copy_created_fail_run h]
  · exact fun g t2 r2 w2 a b c h => by rw [step_image_created_fail_run h]

/-- Witness for C3: the fault-injection scenario (a fresh run whose
dossier generation raises `RuntimeError: boom`), with backoff base 60,
cap 3600, jitter 0, at `now = 100`. -/
theorem C3_step_failure_round_trip_witness :
    (0 < 60 ∧ 0 < 3600 ∧
      orchestratorBody failingGen theTheme (startInvocation freshRun) emptyWorld =
        ((orchestratorBody failingGen theTheme (startInvocation freshRun) emptyWorld).1,
         (orchestratorBody failingGen theTheme (startInvocation freshRun) emptyWorld).2.1,
         some ⟨"RuntimeError", "boom"⟩)) ∧
    (create_post_from_scratch_orchestrator failingGen theTheme 60 3600 0
        freshRun emptyWorld 100).1.status = WorkflowStatus.FAILED_RETRYABLE ∧
    (create_post_from_scratch_orchestrator failingGen theTheme 60 3600 0
        freshRun emptyWorld 100).1.step_attempt = 1 ∧
    (∃ t, (create_post_from_scratch_orchestrator failingGen theTheme 60 3600 0
        freshRun emptyWorld 100).1.retry_at = some t ∧ 100 < t) := by
  have h := C3_step_failure_round_trip failingGen theTheme 60 3600 0 freshRun
    emptyWorld 100
    (orchestratorBody failingGen theTheme (startInvocation freshRun) emptyWorld).1
    (orchestratorBody failingGen theTheme (startInvocation freshRun) emptyWorld).2.1
    ⟨"RuntimeError", "boom"⟩ (by decide) (by decide) rfl
  exact ⟨⟨by decide, by decide, rfl⟩, h.1, h.2.2.1 (by decide), h.2.2.2.2.2.1⟩

/-! ## C8 -/

/-- C8: creating a run with payload `{"theme": "hydration"}` and the
mock collaborator returning `{"dossie": "D", "search_queries_used": []}`
for the dossier prompt, one orchestrator invocation returns (rather
than raises) a run with `state_data["dossier_content"] == "D"` and
`current_step == "dossier_created"` — control falls through into the
copy step in the same pass, whose failure is absorbed by the top-level
handler. -/
theorem C8_concrete_first_invocation :
    (create_post_from_scratch_orchestrator mockDossierGen theTheme 60 3600 0
        freshRun emptyWorld 100).1.state_data.get "dossier_content" =
      some (.str "D") ∧
    (create_post_from_scratch_orchestrator mockDossierGen theTheme 60 3600 0
        freshRun emptyWorld 100).1.current_step = "dossier_created" :=
  ⟨rfl, rfl⟩

/-! ## C7 -/

/-- C7 counterexample: two consecutive failing invocations at the same
step (`start`) leave `step_attempt = 1`, not 2 — the claim that
`step_attempt` is never reset merely by starting another invocation,
and equals N after N consecutive failed invocations, is false: the
orchestrator resets it at the top of every invocation that finds the
run not RUNNING. -/
theorem C7_counterexample_two_failures :
    failInv1.1.status = WorkflowStatus.FAILED_RETRYABLE ∧
    failInv1.1.current_step = "start" ∧
    failInv1.1.step_attempt = 1 ∧
    failInv2.1.status = WorkflowStatus.FAILED_RETRYABLE ∧
    failInv2.1.current_step = "start" ∧
    failInv2.1.step_attempt = 1 ∧
    failInv2.1.step_attempt ≠ 2 :=
  ⟨rfl, rfl, rfl, rfl, rfl, rfl, by decide⟩

/-- C7 (amended): `step_attempt` is reset to 0 at the start of any
invocation that finds the run not RUNNING — in particular when
re-invoking a FAILED_RETRYABLE run — as well as on each successful
step advance, so an invocation that begins on a non-RUNNING run and
fails ends with `step_attempt = 1` regardless of how many consecutive
failed invocations preceded it. -/
theorem C7_amended_step_attempt_reset_on_invocation
    (gen : Collaborators) (θ : ThemeContract) (base maxSeconds jitter : Nat)
    (run : WorkflowRun) (w : World) (now : Nat)
    (w1 : World) (run1 : WorkflowRun) (e : PyErr)
    (hs : run.status ≠ WorkflowStatus.RUNNING)
    (hbody : orchestratorBody gen θ (startInvocation run) w = (w1, run1, some e)) :
    (startInvocation run).step_attempt = 0 ∧
    (create_post_from_scratch_orchestrator gen θ base maxSeconds jitter run w
      now).1.step_attempt = 1 := by
  have h0 : (startInvocation run).step_attempt = 0 := by
    unfold startInvocation
    rw [if_pos hs]
  refine ⟨h0, ?_⟩
  have hb := orchestratorBody_attempt gen θ (startInvocation run) w
  rw [hbody] at hb
  dsimp only at hb
  rw [h0] at hb
  have h1 : run1.step_attempt = 0 := hb.elim id id
  unfold create_post_from_scratch_orchestrator
  dsimp only
  rw [hbody]
  dsimp only
  rw [h1]

/-- Witness for the amended C7 at the concrete fault-injection
scenario. -/
theorem C7_amended_step_attempt_reset_on_invocation_witness :
    (freshRun.status ≠ WorkflowStatus.RUNNING ∧
      orchestratorBody failingGen theTheme (startInvocation freshRun) emptyWorld =
        ((orchestratorBody failingGen theTheme (startInvocation freshRun) emptyWorld).1,
         (orchestratorBody failingGen theTheme (startInvocation freshRun) emptyWorld).2.1,
         some ⟨"RuntimeError", "boom"⟩)) ∧
    (startInvocation freshRun).step_attempt = 0 ∧
    (create_post_from_scratch_orchestrator failingGen theTheme 60 3600 0
      freshRun emptyWorld 100).1.step_attempt = 1 :=
  ⟨⟨by decide, rfl⟩,
   C7_amended_step_attempt_reset_on_invocation failingGen theTheme 60 3600 0
     freshRun emptyWorld 100
     (orchestratorBody failingGen theTheme (startInvocation freshRun) emptyWorld).1
     (orchestratorBody failingGen theTheme (startInvocation freshRun) emptyWorld).2.1
     ⟨"RuntimeError", "boom"⟩ (by decide) rfl⟩

/-! ## C4 support: invocation-level preservation lemmas -/

/-- The copy step's outputs are never touched by any invocation: the
source calls `copywriter_use_case` with its required `theme` parameter
missing, so the copy block always raises before generating, and no
other block writes `title`/`description` or issues a `copywriting`
prompt. -/
theorem orchestrator_preserves_copy_outputs (gen : Collaborators)
    (θ : ThemeContract) (base maxSeconds jitter : Nat) (run : WorkflowRun)
    (w : World) (now : Nat) :
    (create_post_from_scratch_orchestrator gen θ base maxSeconds jitter run w now).1.state_data.get "title" =
      run.state_data.get "title" ∧
    (create_post_from_scratch_orchestrator gen θ base maxSeconds jitter run w now).1.state_data.get "description" =
      run.state_data.get "description" ∧
    (create_post_from_scratch_orchestrator gen θ base maxSeconds jitter run w now).2.calls.promptCount "copywriting" =
      w.calls.promptCount "copywriting" := by
  obtain ⟨hd1, hd2, hd3⟩ := orchestrator_decompose gen θ base maxSeconds jitter run w now
  obtain ⟨hs1, hs2⟩ := startInvocation_fields run
  have hphi := orchestratorBody_phi
    (fun r' w' => r'.state_data.get "title" = run.state_data.get "title" ∧
      r'.state_data.get "description" = run.state_data.get "description" ∧
      w'.calls.promptCount "copywriting" = w.calls.promptCount "copywriting")
    gen θ (startInvocation run) w
    ⟨by rw [hs2], by rw [hs2], rfl⟩ ?_ ?_ ?_ ?_ ?_
  · refine ⟨?_, ?_, ?_⟩
    · rw [hd3]; exact hphi.1
    · rw [hd3]; exact hphi.2.1
    · rw [hd1]; exact hphi.2.2
  · rintro r' w' ⟨h1, h2, h3⟩
    exact ⟨(step_start_state_get gen r' w' "title" (by decide)).trans h1,
      (step_start_state_get gen r' w' "description" (by decide)).trans h2,
      (step_start_promptCount gen r' w' "copywriting" (by decide)).trans h3⟩
  · rintro r' w' ⟨h1, h2, h3⟩
    obtain ⟨hw, hr⟩ := step_dossier_created_inert r' w'
    rw [hw, hr]
    exact ⟨h1, h2, h3⟩
  · rintro r' w' ⟨h1, h2, h3⟩
    exact ⟨(step_copy_created_state_get gen r' w' "title" (by decide) (by decide)).trans h1,
      (step_copy_created_state_get gen r' w' "description" (by decide) (by decide)).trans h2,
      (step_copy_created_promptCount gen r' w' "copywriting" (by decide)).trans h3⟩
  · rintro r' w' ⟨h1, h2, h3⟩
    refine ⟨(step_image_created_state_get gen θ r' w' "title" (by decide) (by decide)).trans h1,
      (step_image_created_state_get gen θ r' w' "description" (by decide) (by decide)).trans h2, ?_⟩
    have hc := step_image_created_calls gen θ r' w'
    rw [show ((step_image_created gen θ r' w').1).calls.promptCount "copywriting" =
        w'.calls.promptCount "copywriting" from by rw [hc]]
    exact h3
  · rintro r' w' ⟨h1, h2, h3⟩
    obtain ⟨hw, hsd, _, _⟩ := step_final_image_created_fields r' w'
    rw [hw, hsd]
    exact ⟨h1, h2, h3⟩

/-- An invocation entered at any state other than `start` issues no
dossier prompt and leaves `state_data["dossier_content"]` untouched. -/
theorem orchestrator_skips_dossier (gen : Collaborators) (θ : ThemeContract)
    (base maxSeconds jitter : Nat) (run : WorkflowRun) (w : World) (now : Nat)
    (hcs : run.current_step ≠ "start") :
    (create_post_from_scratch_orchestrator gen θ base maxSeconds jitter run w now).2.calls.promptCount "dossier" =
      w.calls.promptCount "dossier" ∧
    (create_post_from_scratch_orchestrator gen θ base maxSeconds jitter run w now).1.state_data.get "dossier_content" =
      run.state_data.get "dossier_content" := by
  obtain ⟨hd1, hd2, hd3⟩ := orchestrator_decompose gen θ base maxSeconds jitter run w now
  obtain ⟨hs1, hs2⟩ := startInvocation_fields run
  have hphi := orchestratorBody_phi
    (fun r' w' => r'.current_step ≠ "start" ∧
      w'.calls.promptCount "dossier" = w.calls.promptCount "dossier" ∧
      r'.state_data.get "dossier_content" = run.state_data.get "dossier_content")
    gen θ (startInvocation run) w
    ⟨by rw [hs1]; exact hcs, rfl, by rw [hs2]⟩ ?_ ?_ ?_ ?_ ?_
  · exact ⟨by rw [hd1]; exact hphi.2.1, by rw [hd3]; exact hphi.2.2⟩
  · rintro r' w' ⟨hne, h1, h2⟩
    rw [step_start_skip hne]
    exact ⟨hne, h1, h2⟩
  · rintro r' w' ⟨hne, h1, h2⟩
    obtain ⟨hw, hr⟩ := step_dossier_created_inert r' w'
    rw [hw, hr]
    exact ⟨hne, h1, h2⟩
  · rintro r' w' ⟨hne, h1, h2⟩
    refine ⟨?_, (step_copy_created_promptCount gen r' w' "dossier" (by decide)).trans h1,
      (step_copy_created_state_get gen r' w' "dossier_content" (by decide) (by decide)).trans h2⟩
    rcases step_copy_created_current gen r' w' with hc | hc
    · rw [hc]; exact hne
    · rw [hc]; exact (by decide)
  · rintro r' w' ⟨hne, h1, h2⟩
    refine ⟨?_, ?_,
      (step_image_created_state_get gen θ r' w' "dossier_content" (by decide) (by decide)).trans h2⟩
    · rcases step_image_created_current gen θ r' w' with hc | hc
      · rw [hc]; exact hne
      · rw [hc]; exact (by decide)
    · have hc := step_image_created_calls gen θ r' w'
      rw [show ((step_image_created gen θ r' w').1).calls.promptCount "dossier" =
          w'.calls.promptCount "dossier" from by rw [hc]]
      exact h1
  · rintro r' w' ⟨hne, h1, h2⟩
    obtain ⟨hw, hsd, hcs5, _⟩ := step_final_image_created_fields r' w'
    rw [hw, hsd, hcs5]
    exact ⟨hne, h1, h2⟩

/-- An invocation entered at any state other than `copy_created`
issues no `image_prompt_components` prompt and no media-generator call,
and leaves the base-image outputs untouched. -/
theorem orchestrator_skips_create_image (gen : Collaborators)
    (θ : ThemeContract) (base maxSeconds jitter : Nat) (run : WorkflowRun)
    (w : World) (now : Nat) (hcs : run.current_step ≠ "copy_created") :
    (create_post_from_scratch_orchestrator gen θ base maxSeconds jitter run w now).2.calls.promptCount "image_prompt_components" =
      w.calls.promptCount "image_prompt_components" ∧
    (create_post_from_scratch_orchestrator gen θ base maxSeconds jitter run w now).2.calls.media =
      w.calls.media ∧
    (create_post_from_scratch_orchestrator gen θ base maxSeconds jitter run w now).1.state_data.get "generated_image_path" =
      run.state_data.get "generated_image_path" ∧
    (create_post_from_scratch_orchestrator gen θ base maxSeconds jitter run w now).1.state_data.get "generated_image_filename" =
      run.state_data.get "generated_image_filename" := by
  obtain ⟨hd1, hd2, hd3⟩ := orchestrator_decompose gen θ base maxSeconds jitter run w now
  obtain ⟨hs1, hs2⟩ := startInvocation_fields run
  have hphi := orchestratorBody_phi
    (fun r' w' => r'.current_step ≠ "copy_created" ∧
      w'.calls.promptCount "image_prompt_components" =
        w.calls.promptCount "image_prompt_components" ∧
      w'.calls.media = w.calls.media ∧
      r'.state_data.get "generated_image_path" =
        run.state_data.get "generated_image_path" ∧
      r'.state_data.get "generated_image_filename" =
        run.state_data.get "generated_image_filename")
    gen θ (startInvocation run) w
    ⟨by rw [hs1]; exact hcs, rfl, rfl, by rw [hs2], by rw [hs2]⟩ ?_ ?_ ?_ ?_ ?_
  · exact ⟨by rw [hd1]; exact hphi.2.1, by rw [hd1]; exact hphi.2.2.1,
      by rw [hd3]; exact hphi.2.2.2.1, by rw [hd3]; exact hphi.2.2.2.2⟩
  · rintro r' w' ⟨hne, h1, h2, h3, h4⟩
    refine ⟨?_,
      (step_start_promptCount gen r' w' "image_prompt_components" (by decide)).trans h1,
      (step_start_media gen r' w').trans h2,
      (step_start_state_get gen r' w' "generated_image_path" (by decide)).trans h3,
      (step_start_state_get gen r' w' "generated_image_filename" (by decide)).trans h4⟩
    rcases step_start_current gen r' w' with hc | hc
    · rw [hc]; exact hne
    · rw [hc]; exact (by decide)
  · rintro r' w' ⟨hne, h1, h2, h3, h4⟩
    obtain ⟨hw, hr⟩ := step_dossier_created_inert r' w'
    rw [hw, hr]
    exact ⟨hne, h1, h2, h3, h4⟩
  · rintro r' w' ⟨hne, h1, h2, h3, h4⟩
    rw [step_copy_created_skip hne]
    exact ⟨hne, h1, h2, h3, h4⟩
  · rintro r' w' ⟨hne, h1, h2, h3, h4⟩
    have hc := step_image_created_calls gen θ r' w'
    refine ⟨?_,
      by rw [show ((step_image_created gen θ r' w').1).calls.promptCount "image_prompt_components" =
          w'.calls.promptCount "image_prompt_components" from by rw [hc]]; exact h1,
      by rw [show ((step_image_created gen θ r' w').1).calls.media = w'.calls.media
          from by rw [hc]]; exact h2,
      (step_image_created_state_get gen θ r' w' "generated_image_path" (by decide) (by decide)).trans h3,
      (step_image_created_state_get gen θ r' w' "generated_image_filename" (by decide) (by decide)).trans h4⟩
    rcases step_image_created_current gen θ r' w' with hci | hci
    · rw [hci]; exact hne
    · rw [hci]; exact (by decide)
  · rintro r' w' ⟨hne, h1, h2, h3, h4⟩
    obtain ⟨hw, hsd, hcs5, _⟩ := step_final_image_created_fields r' w'
    rw [hw, hsd, hcs5]
    exact ⟨hne, h1, h2, h3, h4⟩

/-- An invocation entered at any state other than `copy_created` or
`image_created` leaves the edit step's outputs untouched. -/
theorem orchestrator_skips_edit_image (gen : Collaborators)
    (θ : ThemeContract) (base maxSeconds jitter : Nat) (run : WorkflowRun)
    (w : World) (now : Nat) (hcc : run.current_step ≠ "copy_created")
    (hic : run.current_step ≠ "image_created") :
    (create_post_from_scratch_orchestrator gen θ base maxSeconds jitter run w now).1.state_data.get "final_image_path" =
      run.state_data.get "final_image_path" ∧
    (create_post_from_scratch_orchestrator gen θ base maxSeconds jitter run w now).1.state_data.get "final_image_filename" =
      run.state_data.get "final_image_filename" := by
  obtain ⟨hd1, hd2, hd3⟩ := orchestrator_decompose gen θ base maxSeconds jitter run w now
  obtain ⟨hs1, hs2⟩ := startInvocation_fields run
  have hphi := orchestratorBody_phi
    (fun r' w' => r'.current_step ≠ "copy_created" ∧
      r'.current_step ≠ "image_created" ∧
      r'.state_data.get "final_image_path" =
        run.state_data.get "final_image_path" ∧
      r'.state_data.get "final_image_filename" =
        run.state_data.get "final_image_filename")
    gen θ (startInvocation run) w
    ⟨by rw [hs1]; exact hcc, by rw [hs1]; exact hic, by rw [hs2], by rw [hs2]⟩
    ?_ ?_ ?_ ?_ ?_
  · exact ⟨by rw [hd3]; exact hphi.2.2.1, by rw [hd3]; exact hphi.2.2.2⟩
  · rintro r' w' ⟨h1, h2, h3, h4⟩
    refine ⟨?_, ?_,
      (step_start_state_get gen r' w' "final_image_path" (by decide)).trans h3,
      (step_start_state_get gen r' w' "final_image_filename" (by decide)).trans h4⟩
    · rcases step_start_current gen r' w' with hc | hc
      · rw [hc]; exact h1
      · rw [hc]; exact (by decide)
    · rcases step_start_current gen r' w' with hc | hc
      · rw [hc]; exact h2
      · rw [hc]; exact (by decide)
  · rintro r' w' ⟨h1, h2, h3, h4⟩
    obtain ⟨hw, hr⟩ := step_dossier_created_inert r' w'
    rw [hr]
    exact ⟨h1, h2, h3, h4⟩
  · rintro r' w' ⟨h1, h2, h3, h4⟩
    rw [step_copy_created_skip h1]
    exact ⟨h1, h2, h3, h4⟩
  · rintro r' w' ⟨h1, h2, h3, h4⟩
    rw [step_image_created_skip h2]
    exact ⟨h1, h2, h3, h4⟩
  · rintro r' w' ⟨h1, h2, h3, h4⟩
    obtain ⟨hw, hsd, hcs5, _⟩ := step_final_image_created_fields r' w'
    rw [hsd, hcs5]
    exact ⟨h1, h2, h3, h4⟩

/-- No block ever sets `current_step` to `copy_created` (the copy block
would, but it always raises), so an invocation can only end at
`copy_created` if it began there. -/
theorem orchestrator_copy_created_only_from_itself (gen : Collaborators)
    (θ : ThemeContract) (base maxSeconds jitter : Nat) (run : WorkflowRun)
    (w : World) (now : Nat)
    (h : (create_post_from_scratch_orchestrator gen θ base maxSeconds jitter run w now).1.current_step = "copy_created") :
    run.current_step = "copy_created" := by
  obtain ⟨hd1, hd2, hd3⟩ := orchestrator_decompose gen θ base maxSeconds jitter run w now
  obtain ⟨hs1, _⟩ := startInvocation_fields run
  have hphi := orchestratorBody_phi
    (fun r' _ => r'.current_step = "copy_created" →
      run.current_step = "copy_created")
    gen θ (startInvocation run) w
    (fun hh => by rw [← hs1]; exact hh) ?_ ?_ ?_ ?_ ?_
  · exact hphi (by rw [← hd2]; exact h)
  · intro r' w' hind hh
    rcases step_start_current gen r' w' with hc | hc
    · rw [hc] at hh; exact hind hh
    · rw [hc] at hh; exact absurd hh (by decide)
  · intro r' w' hind hh
    rw [(step_dossier_created_inert r' w').2] at hh
    exact hind hh
  · intro r' w' hind hh
    rcases step_copy_created_current gen r' w' with hc | hc
    · rw [hc] at hh; exact hind hh
    · rw [hc] at hh; exact absurd hh (by decide)
  · intro r' w' hind hh
    rcases step_image_created_current gen θ r' w' with hc | hc
    · rw [hc] at hh; exact hind hh
    · rw [hc] at hh; exact absurd hh (by decide)
  · intro r' w' hind hh
    rw [(step_final_image_created_fields r' w').2.2.1] at hh
    exact hind hh

/-! ## C4 -/

/-- C4: per-step idempotency.  For every step, if the first invocation
entered at that step's entry state and advanced past it, a second
invocation on the resulting run and world issues zero additional
collaborator calls for that step and leaves that step's `state_data`
outputs identical; in particular a run reloaded at
`current_step = "dossier_created"` never re-issues the dossier prompt,
leaves the cached `dossier_content` untouched, and its invocation is
literally the pipeline from the copy step onward. -/
theorem C4_step_idempotency (gen : Collaborators) (θ : ThemeContract)
    (base maxSeconds jit1 jit2 now1 now2 : Nat) (run : WorkflowRun) (w : World) :
    ((run.current_step = "start" ∧
        (create_post_from_scratch_orchestrator gen θ base maxSeconds jit1 run w now1).1.current_step ≠ "start") →
      (create_post_from_scratch_orchestrator gen θ base maxSeconds jit2
          (create_post_from_scratch_orchestrator gen θ base maxSeconds jit1 run w now1).1
          (create_post_from_scratch_orchestrator gen θ base maxSeconds jit1 run w now1).2
          now2).2.calls.promptCount "dossier" =
        (create_post_from_scratch_orchestrator gen θ base maxSeconds jit1 run w now1).2.calls.promptCount "dossier" ∧
      (create_post_from_scratch_orchestrator gen θ base maxSeconds jit2
          (create_post_from_scratch_orchestrator gen θ base maxSeconds jit1 run w now1).1
          (create_post_from_scratch_orchestrator gen θ base maxSeconds jit1 run w now1).2
          now2).1.state_data.get "dossier_content" =
        (create_post_from_scratch_orchestrator gen θ base maxSeconds jit1 run w now1).1.state_data.get "dossier_content") ∧
    ((run.current_step = "dossier_created" ∧
        (create_post_from_scratch_orchestrator gen θ base maxSeconds jit1 run w now1).1.current_step ≠ "dossier_created") →
      (create_post_from_scratch_orchestrator gen θ base maxSeconds jit2
          (create_post_from_scratch_orchestrator gen θ base maxSeconds jit1 run w now1).1
          (create_post_from_scratch_orchestrator gen θ base maxSeconds jit1 run w now1).2
          now2).2.calls.promptCount "copywriting" =
        (create_post_from_scratch_orchestrator gen θ base maxSeconds jit1 run w now1).2.calls.promptCount "copywriting" ∧
      (create_post_from_scratch_orchestrator gen θ base maxSeconds jit2
          (create_post_from_scratch_orchestrator gen θ base maxSeconds jit1 run w now1).1
          (create_post_from_scratch_orchestrator gen θ base maxSeconds jit1 run w now1).2
          now2).1.state_data.get "title" =
        (create_post_from_scratch_orchestrator gen θ base maxSeconds jit1 run w now1).1.state_data.get "title" ∧
      (create_post_from_scratch_orchestrator gen θ base maxSeconds jit2
          (create_post_from_scratch_orchestrator gen θ base maxSeconds jit1 run w now1).1
          (create_post_from_scratch_orchestrator gen θ base maxSeconds jit1 run w now1).2
          now2).1.state_data.get "description" =
        (create_post_from_scratch_orchestrator gen θ base maxSeconds jit1 run w now1).1.state_data.get "description") ∧
    ((run.current_step = "copy_created" ∧
        (create_post_from_scratch_orchestrator gen θ base maxSeconds jit1 run w now1).1.current_step ≠ "copy_created") →
      (create_post_from_scratch_orchestrator gen θ base maxSeconds jit2
          (create_post_from_scratch_orchestrator gen θ base maxSeconds jit1 run w now1).1
          (create_post_from_scratch_orchestrator gen θ base maxSeconds jit1 run w now1).2
          now2).2.calls.promptCount "image_prompt_components" =
        (create_post_from_scratch_orchestrator gen θ base maxSeconds jit1 run w now1).2.calls.promptCount "image_prompt_components" ∧
      (create_post_from_scratch_orchestrator gen θ base maxSeconds jit2
          (create_post_from_scratch_orchestrator gen θ base maxSeconds jit1 run w now1).1
          (create_post_from_scratch_orchestrator gen θ base maxSeconds jit1 run w now1).2
          now2).2.calls.media =
        (create_post_from_scratch_orchestrator gen θ base maxSeconds jit1 run w now1).2.calls.media ∧
      (create_post_from_scratch_orchestrator gen θ base maxSeconds jit2
          (create_post_from_scratch_orchestrator gen θ base maxSeconds jit1 run w now1).1
          (create_post_from_scratch_orchestrator gen θ base maxSeconds jit1 run w now1).2
          now2).1.state_data.get "generated_image_path" =
        (create_post_from_scratch_orchestrator gen θ base maxSeconds jit1 run w now1).1.state_data.get "generated_image_path" ∧
      (create_post_from_scratch_orchestrator gen θ base maxSeconds jit2
          (create_post_from_scratch_orchestrator gen θ base maxSeconds jit1 run w now1).1
          (create_post_from_scratch_orchestrator gen θ base maxSeconds jit1 run w now1).2
          now2).1.state_data.get "generated_image_filename" =
        (create_post_from_scratch_orchestrator gen θ base maxSeconds jit1 run w now1).1.state_data.get "generated_image_filename") ∧
    ((run.current_step = "image_created" ∧
        (create_post_from_scratch_orchestrator gen θ base maxSeconds jit1 run w now1).1.current_step ≠ "image_created") →
      (create_post_from_scratch_orchestrator gen θ base maxSeconds jit2
          (create_post_from_scratch_orchestrator gen θ base maxSeconds jit1 run w now1).1
          (create_post_from_scratch_orchestrator gen θ base maxSeconds jit1 run w now1).2
          now2).1.state_data.get "final_image_path" =
        (create_post_from_scratch_orchestrator gen θ base maxSeconds jit1 run w now1).1.state_data.get "final_image_path" ∧
      (create_post_from_scratch_orchestrator gen θ base maxSeconds jit2
          (create_post_from_scratch_orchestrator gen θ base maxSeconds jit1 run w now1).1
          (create_post_from_scratch_orchestrator gen θ base maxSeconds jit1 run w now1).2
          now2).1.state_data.get "final_image_filename" =
        (create_post_from_scratch_orchestrator gen θ base maxSeconds jit1 run w now1).1.state_data.get "final_image_filename") ∧
    (run.current_step = "dossier_created" →
      (create_post_from_scratch_orchestrator gen θ base maxSeconds jit1 run w now1).2.calls.promptCount "dossier" =
        w.calls.promptCount "dossier" ∧
      (create_post_from_scratch_orchestrator gen θ base maxSeconds jit1 run w now1).1.state_data.get "dossier_content" =
        run.state_data.get "dossier_content" ∧
      orchestratorBody gen θ (startInvocation run) w =
        orchestratorBodyFromCopyStep gen θ (startInvocation run) w) := by
  refine ⟨?_, ?_, ?_, ?_, ?_⟩
  · rintro ⟨_, hne⟩
    exact orchestrator_skips_dossier gen θ base maxSeconds jit2
      (create_post_from_scratch_orchestrator gen θ base maxSeconds jit1 run w now1).1
      (create_post_from_scratch_orchestrator gen θ base maxSeconds jit1 run w now1).2
      now2 hne
  · rintro ⟨_, _⟩
    obtain ⟨h1, h2, h3⟩ := orchestrator_preserves_copy_outputs gen θ base
      maxSeconds jit2
      (create_post_from_scratch_orchestrator gen θ base maxSeconds jit1 run w now1).1
      (create_post_from_scratch_orchestrator gen θ base maxSeconds jit1 run w now1).2
      now2
    exact ⟨h3, h1, h2⟩
  · rintro ⟨_, hne⟩
    exact orchestrator_skips_create_image gen θ base maxSeconds jit2
      (create_post_from_scratch_orchestrator gen θ base maxSeconds jit1 run w now1).1
      (create_post_from_scratch_orchestrator gen θ base maxSeconds jit1 run w now1).2
      now2 hne
  · rintro ⟨hrun, hne⟩
    have hncc : (create_post_from_scratch_orchestrator gen θ base maxSeconds jit1 run w now1).1.current_step ≠ "copy_created" := by
      intro hcc
      have hfrom := orchestrator_copy_created_only_from_itself gen θ base
        maxSeconds jit1 run w now1 hcc
      rw [hrun] at hfrom
      exact absurd hfrom (by decide)
    exact orchestrator_skips_edit_image gen θ base maxSeconds jit2
      (create_post_from_scratch_orchestrator gen θ base maxSeconds jit1 run w now1).1
      (create_post_from_scratch_orchestrator gen θ base maxSeconds jit1 run w now1).2
      now2 hncc hne
  · intro hd
    have hne : run.current_step ≠ "start" := by rw [hd]; exact (by decide)
    obtain ⟨h1, h2⟩ := orchestrator_skips_dossier gen θ base maxSeconds jit1
      run w now1 hne
    refine ⟨h1, h2, ?_⟩
    apply orchestratorBody_skip_start
    rw [(startInvocation_fields run).1]
    exact hne

/-- Witness for C4: conjunct (1) discharged at the fresh-run scenario
(first invocation advances past the dossier step) and conjunct (5) at
the mid-pipeline resumed run with its cached dossier. -/
theorem C4_step_idempotency_witness :
    (freshRun.current_step = "start" ∧
      (create_post_from_scratch_orchestrator mockDossierGen theTheme 60 3600 0
        freshRun emptyWorld 100).1.current_step ≠ "start") ∧
    (create_post_from_scratch_orchestrator mockDossierGen theTheme 60 3600 0
        (create_post_from_scratch_orchestrator mockDossierGen theTheme 60 3600 0
          freshRun emptyWorld 100).1
        (create_post_from_scratch_orchestrator mockDossierGen theTheme 60 3600 0
          freshRun emptyWorld 100).2
        200).2.calls.promptCount "dossier" =
      (create_post_from_scratch_orchestrator mockDossierGen theTheme 60 3600 0
        freshRun emptyWorld 100).2.calls.promptCount "dossier" ∧
    resumedRun.current_step = "dossier_created" ∧
    (create_post_from_scratch_orchestrator mockDossierGen theTheme 60 3600 0
        resumedRun resumedWorld 100).2.calls.promptCount "dossier" =
      resumedWorld.calls.promptCount "dossier" ∧
    (create_post_from_scratch_orchestrator mockDossierGen theTheme 60 3600 0
        resumedRun resumedWorld 100).1.state_data.get "dossier_content" =
      resumedRun.state_data.get "dossier_content" ∧
    orchestratorBody mockDossierGen theTheme (startInvocation resumedRun)
        resumedWorld =
      orchestratorBodyFromCopyStep mockDossierGen theTheme
        (startInvocation resumedRun) resumedWorld := by
  have hfresh : (freshRun.current_step = "start" ∧
      (create_post_from_scratch_orchestrator mockDossierGen theTheme 60 3600 0
        freshRun emptyWorld 100).1.current_step ≠ "start") := ⟨rfl, by decide⟩
  have h1 := (C4_step_idempotency mockDossierGen theTheme 60 3600 0 0 100 200
    freshRun emptyWorld).1 hfresh
  have h5 := (C4_step_idempotency mockDossierGen theTheme 60 3600 0 0 100 200
    resumedRun resumedWorld).2.2.2.2 rfl
  exact ⟨hfresh, h1.1, rfl, h5.1, h5.2.1, h5.2.2⟩

end InstagramAutomation
